import Mathlib

/-!
Verification of the ns-3 scenario program `wirelessNet.cc`
(repository lauraaac/adhocNetwork-ME01).

The program is a configuration script over the ns-3 simulation framework:
it builds an ad-hoc backbone wifi network, attaches one sub-network per
backbone node, wires mobility / routing / traffic / tracing, runs the
simulator and writes flow statistics to CSV files.

This file gives a shallow embedding of the program's own logic:
  * the flow-statistics CSV writing loops (lines 302-344 of wirelessNet.cc),
  * the `AdHocNetwork` constructors and `setMobilityModel` (lines 116-200),
  * the `main` function's topology / application / tracing wiring
    (lines 202-298).
Framework-supplied behaviour (PHY/MAC simulation, OLSR computation,
mobility trajectories, flow measurement) is represented by the
configuration records the program hands to the framework, and by
abstract inputs (the list of measured flows, the pseudo-random sequence).
-/

set_option maxRecDepth 4000

namespace WirelessNet

/-! ## Flow statistics (framework outputs consumed by the CSV loops)

`FlowMonitor::FlowStats` fields used by the program; `rxPackets` and
`lostPackets` are `uint32_t` in ns-3, byte counters are integral, and the
time values are the `double` results of `Time::GetSeconds`, modelled as
rationals. -/

structure FlowStats where
  txBytes : Nat
  rxBytes : Nat
  rxPackets : Nat
  lostPackets : Nat
  timeFirstTxPacket : ℚ
  timeLastTxPacket : ℚ
  delaySum : ℚ
  jitterSum : ℚ
deriving DecidableEq

/-- `Ipv4FlowClassifier::FiveTuple` fields used by the program (the printed
source and destination addresses, kept abstract as strings). -/
structure FiveTuple where
  sourceAddress : String
  destinationAddress : String
deriving DecidableEq

/-- One monitored flow: its classifier tuple and its statistics, i.e. one
entry of the `std::map<FlowId, FlowMonitor::FlowStats>` in iteration order. -/
structure Flow where
  tuple : FiveTuple
  stats : FlowStats
deriving DecidableEq

/-- `2^32`, the modulus of `uint32_t` arithmetic. -/
def u32 : Nat := 2 ^ 32

/-- The divisor of the Jitter column: the C++ expression
`i->second.rxPackets - 1` where `rxPackets : uint32_t`, hence computed
modulo `2^32` (it wraps around for `rxPackets = 0`). -/
def jitterDivisor (s : FlowStats) : Nat := (s.rxPackets + (u32 - 1)) % u32

/-- `bitrate` of the per-flow loop (line 317):
`(txBytes * 8.0) / (timeLastTxPacket - timeFirstTxPacket) / 1000`. -/
def bitrateOf (s : FlowStats) : ℚ :=
  ((s.txBytes : ℚ) * 8) / (s.timeLastTxPacket - s.timeFirstTxPacket) / 1000

/-- `Duration` of the per-flow loop (line 318). -/
def durationOf (s : FlowStats) : ℚ := s.timeLastTxPacket - s.timeFirstTxPacket

/-- `percentage` of the per-flow loop (line 320): `Duration / timemax`
where `timemax = timeLastTxPacket.GetSeconds()`. -/
def percentageOf (s : FlowStats) : ℚ := durationOf s / s.timeLastTxPacket

/-- `average` of the per-flow loop (line 321). -/
def averageOf (s : FlowStats) : ℚ := bitrateOf s * percentageOf s

/-- One semicolon-separated row of `data.csv` (lines 325-337). -/
structure DataRow where
  sourceAddress : String
  destinationAddress : String
  txBytes : Nat
  rxBytes : Nat
  firstTxPacket : ℚ
  lastTxPacket : ℚ
  duration : ℚ
  delay : ℚ
  jitter : ℚ
  lostPackets : Nat
  txBitrate : ℚ
  averageTraffic : ℚ
deriving DecidableEq

/-- The header row of `data.csv` (line 309). -/
def dataHeader : String :=
  "Source Address;Destination Address;TxBytes;RxBytes;FirstTxPacket;LastTxPacket;Duration;Delay;Jitter;LostPackets;TxBitrate;average traffic"

/-- The row the per-flow loop writes for one flow (lines 312-337). -/
def dataRowOf (f : Flow) : DataRow :=
  { sourceAddress := f.tuple.sourceAddress
    destinationAddress := f.tuple.destinationAddress
    txBytes := f.stats.txBytes
    rxBytes := f.stats.rxBytes
    firstTxPacket := f.stats.timeFirstTxPacket
    lastTxPacket := f.stats.timeLastTxPacket
    duration := durationOf f.stats
    delay := f.stats.delaySum / (f.stats.rxPackets : ℚ)
    jitter := f.stats.jitterSum / (jitterDivisor f.stats : ℚ)
    lostPackets := f.stats.lostPackets
    txBitrate := bitrateOf f.stats
    averageTraffic := averageOf f.stats }

/-- The body of `data.csv`: one row per monitored flow, in the iteration
order of the flow-stats map. -/
def dataRows (flows : List Flow) : List DataRow := flows.map dataRowOf

/-- The accumulation key `contenido` of the per-flow loop (lines 314-316):
`sourceAddress << ";" << destinationAddress`. -/
def flowKey (f : Flow) : String :=
  f.tuple.sourceAddress ++ ";" ++ f.tuple.destinationAddress

/-- The effect of `valores[contenido] += percentage * bitrate;
cantidades[contenido] += 1;` on the pair of `unordered_map`s, modelled as
one association list of `(key, valores[key], cantidades[key])` rows
(both maps are indexed by the same keys). -/
def bump (key : String) (v : ℚ) :
    List (String × ℚ × ℚ) → List (String × ℚ × ℚ)
  | [] => [(key, v, 1)]
  | (k, s, c) :: rest =>
    if k = key then (k, s + v, c + 1) :: rest else (k, s, c) :: bump key v rest

/-- The contents of `resumen.csv`'s data rows (lines 342-344): for each
key of `valores`, the row `key ; valores[key] ; cantidades[key]`, the maps
being filled by the per-flow loop (lines 322-323). -/
def resumenRows (flows : List Flow) : List (String × ℚ × ℚ) :=
  flows.foldl (fun acc f => bump (flowKey f) (averageOf f.stats) acc) []

/-- The header row of `resumen.csv` (line 341). -/
def resumenHeader : String := "Source Address;average traffic"

/-- Sum, over the flows whose key is `key`, of the `average` summand
`percentage * bitrate` added to `valores[key]`. -/
def sumAvg (key : String) (flows : List Flow) : ℚ :=
  ((flows.filter (fun f => flowKey f = key)).map (fun f => averageOf f.stats)).sum

/-- Number of flows whose accumulation key is `key`. -/
def countKey (key : String) (flows : List Flow) : Nat :=
  (flows.filter (fun f => flowKey f = key)).length

/-- The `(valores[key], cantidades[key])` view of an accumulator row list:
the first row with the key, or `(0, 0)` (the `unordered_map` default). -/
def rowVal (acc : List (String × ℚ × ℚ)) (key : String) : ℚ × ℚ :=
  match acc.find? (fun r => r.1 == key) with
  | some r => (r.2.1, r.2.2)
  | none => (0, 0)

/-! ## Topology construction (class `AdHocNetwork` and `main`)

Nodes are identified by their global creation index (ns-3's global node
list order).  Helper calls whose only effect is configuration handed to
the framework are recorded as events or as fields of the resulting
network records. -/

/-- The mobility configuration installed by `AdHocNetwork::setMobilityModel`
(lines 183-199): attribute strings exactly as passed to the framework. -/
structure MobilityCfg where
  typeId : String
  posAllocType : String
  posX : String
  posY : String
  speed : String
  pause : String
deriving DecidableEq

/-- The concrete configuration built by `setMobilityModel`. -/
def rwpMobility : MobilityCfg :=
  { typeId := "ns3::RandomWaypointMobilityModel"
    posAllocType := "ns3::RandomRectanglePositionAllocator"
    posX := "ns3::UniformRandomVariable[Min=0.0|Max=500.0]"
    posY := "ns3::UniformRandomVariable[Min=0.0|Max=500.0]"
    speed := "ns3::UniformRandomVariable[Min=0.0|Max=1.0]"
    pause := "ns3::ConstantRandomVariable[Constant=0.0]" }

/-- Configuration calls recorded in program order. -/
inductive Ev where
  | csmaAscii (file : String)
  | csmaPcapAll (pfx : String) (promiscuous : Bool)
  | csmaInstall (nodes : List Nat)
  | ipv4Ascii (file : String)
  | wifiPcap (pfx : String) (deviceNodes : List Nat) (promiscuous : Bool)
  | mobilityInstall (cfg : MobilityCfg) (nodes : List Nat)
  | pushReference (node : Nat)
  | flowMonitorInstallAll
  | animFile (file : String)
  | routeTracking (file : String) (startT stopT pollInterval : ℚ)
  | simulatorRun (stopT : ℚ)
  | serializeFlowMonitor (file : String)
deriving DecidableEq

/-- `Ipv4AddressHelper` state: for a /24 mask, ns-3 keeps the upper 24
bits in `m_network`, the host part in `m_address`, and the initial host
part (`0.0.0.1`, i.e. `1`) in `m_base`. -/
structure Ipv4AddressHelper where
  network : Nat
  addr : Nat
  base : Nat
deriving DecidableEq

/-- Numeric value of a dotted-quad IPv4 address. -/
def ipv4Address (a b c d : Nat) : Nat := ((a * 256 + b) * 256 + c) * 256 + d

/-- `Ipv4AddressHelper::SetBase(networkAddr, "255.255.255.0")` (the mask
used at line 145): shift is 8, base host part is 1. -/
def setBase24 (networkAddr : Nat) : Ipv4AddressHelper :=
  { network := networkAddr / 256, addr := 1, base := 1 }

/-- `Ipv4AddressHelper::NewNetwork`: increment `m_network`, reset
`m_address` to `m_base`. -/
def Ipv4AddressHelper.newNetwork (h : Ipv4AddressHelper) : Ipv4AddressHelper :=
  { h with network := h.network + 1, addr := h.base }

/-- Global simulator state threaded through the constructors:
the node id counter / global node list, a channel id counter,
the number of Ipv4 interfaces of every node (interface 0 is the loopback
added by `InternetStackHelper::Install`), the assigned addresses as
`(node, interface index, address)` triples, the nodes carrying an
internet stack, the `(node container, routing helper)` stack
installations, and the recorded configuration events. -/
structure SimState where
  nextNodeId : Nat
  globalNodes : List Nat
  nextChannelId : Nat
  ifCount : Nat → Nat
  assigned : List (Nat × Nat × Nat)
  stackNodes : List Nat
  stackInstalls : List (List Nat × String)
  events : List Ev

/-- Consecutive node ids `start, start+1, ..., start+n-1`. -/
def idRange (start n : Nat) : List Nat := (List.range n).map (fun k => start + k)

/-- `NodeContainer::Create(n)`: `n` fresh nodes appended to the global list. -/
def nodeCreate (n : Nat) (st : SimState) : List Nat × SimState :=
  (idRange st.nextNodeId n,
   { st with
     nextNodeId := st.nextNodeId + n
     globalNodes := st.globalNodes ++ idRange st.nextNodeId n })

/-- `InternetStackHelper::Install` on a container whose routing helper is
`routing`: every node gets its loopback interface (hence interface count
1) and joins the stacked nodes. -/
def internetInstall (nodes : List Nat) (routing : String) (st : SimState) : SimState :=
  { st with
    ifCount := fun m => if m ∈ nodes then 1 else st.ifCount m
    stackNodes := st.stackNodes ++ nodes
    stackInstalls := st.stackInstalls ++ [(nodes, routing)] }

/-- `Ipv4AddressHelper::Assign` over the devices of the given nodes, in
container order: each device gets address `(m_network << 8) | m_address`
(32-bit), becomes the node's next Ipv4 interface, and `m_address` is
incremented. -/
def ipAssign : Ipv4AddressHelper → List Nat → SimState →
    Ipv4AddressHelper × List (Nat × Nat × Nat) × SimState
  | h, [], st => (h, [], st)
  | h, n :: rest, st =>
    let a := (h.network * 256 + h.addr) % 2 ^ 32
    let entry : Nat × Nat × Nat := (n, st.ifCount n, a)
    let st1 : SimState :=
      { st with
        ifCount := fun m => if m = n then st.ifCount n + 1 else st.ifCount m
        assigned := st.assigned ++ [entry] }
    let r := ipAssign { h with addr := h.addr + 1 } rest st1
    (r.1, entry :: r.2.1, r.2.2)

/-- The observable result of one `AdHocNetwork` construction: its node
container `backbone`, the single mac type set on its `WifiMacHelper`,
the id of the single channel created for its `YansWifiPhyHelper`, its
devices as `(node, channel)` pairs in install order, the routing helper
of its `InternetStackHelper`, its `ipAddrs` member after construction,
the `m_network` value under which its devices were addressed, and the
assigned `(node, interface, address)` triples. -/
structure AdHocNetwork where
  backbone : List Nat
  macType : String
  channelId : Nat
  devices : List (Nat × Nat)
  routing : String
  ipAddrs : Ipv4AddressHelper
  netNumber : Nat
  ifaceAddrs : List (Nat × Nat × Nat)

/-- The parent constructor `AdHocNetwork(uint32_t backboneNodes)`
(lines 134-149): create the nodes, set mac type `ns3::AdhocWifiMac`,
create one channel, install devices, install the internet stack with the
OLSR routing helper, assign from base `192.168.0.0/255.255.255.0`, call
`NewNetwork`, then `setMobilityModel`. -/
def mkParentAdhoc (backboneNodes : Nat) (st : SimState) : AdHocNetwork × SimState :=
  let p := nodeCreate backboneNodes st
  let ids := p.1
  let st1 := p.2
  let ch := st1.nextChannelId
  let st2 := { st1 with nextChannelId := ch + 1 }
  let st3 := internetInstall ids "ns3::OlsrHelper" st2
  let h0 := setBase24 (ipv4Address 192 168 0 0)
  let r := ipAssign h0 ids st3
  let st4 := r.2.2
  let st5 := { st4 with events := st4.events ++ [Ev.mobilityInstall rwpMobility ids] }
  ({ backbone := ids
     macType := "ns3::AdhocWifiMac"
     channelId := ch
     devices := ids.map (fun n => (n, ch))
     routing := "ns3::OlsrHelper"
     ipAddrs := r.1.newNetwork
     netNumber := h0.network
     ifaceAddrs := r.2.1 }, st5)

/-- The child constructor `AdHocNetwork(AdHocNetwork&, uint32_t, uint32_t)`
(lines 151-170) followed by the two tracing calls of the loop body
(lines 241-242): create `infraNodes` nodes, set mac type
`ns3::AdhocWifiMac`, create one channel, install the parent's internet
stack (routing = parent's OLSR helper) on the new nodes, append parent
backbone node `i` to the container, install devices for the whole
container, assign addresses from the parent's `ipAddrs`, copy that
helper, call `NewNetwork` on the parent's helper, run `setMobilityModel`,
push parent node `i` as reference mobility model, then enable ascii
ipv4 tracing and promiscuous pcap on the new devices.
Returns `(child, parent with updated ipAddrs, state)`. -/
def mkChildStep (parent : AdHocNetwork) (infraNodes i : Nat) (st : SimState) :
    AdHocNetwork × AdHocNetwork × SimState :=
  let p := nodeCreate infraNodes st
  let newIds := p.1
  let st1 := p.2
  let ch := st1.nextChannelId
  let st2 := { st1 with nextChannelId := ch + 1 }
  let st3 := internetInstall newIds parent.routing st2
  let pNode := parent.backbone.getD i 0
  let container := newIds ++ [pNode]
  let r := ipAssign parent.ipAddrs container st3
  let st4 := r.2.2
  let st5 := { st4 with events := st4.events ++
      [Ev.mobilityInstall rwpMobility container,
       Ev.pushReference pNode,
       Ev.ipv4Ascii "mixed-wireless.tr",
       Ev.wifiPcap "mixed-wireless" container true] }
  ({ backbone := container
     macType := "ns3::AdhocWifiMac"
     channelId := ch
     devices := container.map (fun n => (n, ch))
     routing := parent.routing
     ipAddrs := r.1
     netNumber := parent.ipAddrs.network
     ifaceAddrs := r.2.1 },
   { parent with ipAddrs := r.1.newNetwork }, st5)

/-- The `for (uint32_t i = 0; i < backboneNodes; ++i)` loop of `main`
(lines 237-244), with `k` iterations left and `i` the current index. -/
def buildLoop (infraNodes : Nat) :
    AdHocNetwork → Nat → Nat → SimState → AdHocNetwork × List AdHocNetwork × SimState
  | parent, _, 0, st => (parent, [], st)
  | parent, i, k + 1, st =>
    let s := mkChildStep parent infraNodes i st
    let r := buildLoop infraNodes s.2.1 (i + 1) k s.2.2
    (r.1, s.1 :: r.2.1, r.2.2)

/-- One `OnOffHelper` application set installed by an iteration of the
traffic loop (lines 247-271). -/
structure AppInstall where
  protocol : String
  remoteAddr : Option Nat
  remotePort : Nat
  onTime : String
  offTime : String
  packetSize : Nat
  dataRate : String
  installedOn : List Nat
  startTime : ℚ
  stopTime : ℚ
deriving DecidableEq

/-- `node->GetObject<Ipv4>()->GetAddress(1, 0).GetLocal()`: the address
assigned at interface index 1 of the node, if any. -/
def addr1 (assigned : List (Nat × Nat × Nat)) (n : Nat) : Option Nat :=
  (assigned.find? (fun e => e.1 == n && e.2.1 == 1)).map (fun e => e.2.2)

/-- The traffic loop of `main` (lines 247-271): for every index `i`
below the global node count, draw `irand = rand() % GetN()` (the
pseudo-random stream is the input `rnd`), target the drawn node's
interface-1 address on port 9, and install one OnOff UDP application on
every global node, started at 3 s and stopped at `stopT` s. -/
def appLoop (rnd : Nat → Nat) (g : List Nat) (assigned : List (Nat × Nat × Nat))
    (stopT : Nat) : List AppInstall :=
  (List.range g.length).map (fun i =>
    let irand := rnd i % g.length
    let nodeRand := g.getD irand 0
    { protocol := "ns3::UdpSocketFactory"
      remoteAddr := addr1 assigned nodeRand
      remotePort := 9
      onTime := "ns3::ConstantRandomVariable[Constant=1]"
      offTime := "ns3::ConstantRandomVariable[Constant=0]"
      packetSize := 1472
      dataRate := "512kb/s"
      installedOn := g
      startTime := 3
      stopTime := (stopT : ℚ) })

/-- The state before `main` starts: no nodes, no configuration. -/
def initState : SimState :=
  { nextNodeId := 0
    globalNodes := []
    nextChannelId := 0
    ifCount := fun _ => 0
    assigned := []
    stackNodes := []
    stackInstalls := []
    events := [] }

/-- `CommandLine::AddValue` + `Parse`: a command-line value overrides the
default when supplied. -/
def cmdLineValue (supplied : Option Nat) (deflt : Nat) : Nat := supplied.getD deflt

/-- Default of the `backboneNodes` variable (line 205). -/
def defaultBackboneNodes : Nat := 6

/-- Default of the `infraNodes` variable (line 206). -/
def defaultInfraNodes : Nat := 6

/-- Default of the `stopTime` variable (line 207). -/
def defaultStopTime : Nat := 10

/-- The observable result of `main`. -/
structure MainResult where
  parent : AdHocNetwork
  children : List AdHocNetwork
  finalState : SimState
  apps : List AppInstall

/-- `main` (lines 202-298) after command-line parsing: csma tracing
setup, parent ad-hoc network construction and its tracing, the
per-backbone child loop, the traffic loop, flow monitor / animation /
route tracking setup, the simulator run, and the flow monitor dump.
`rnd` is the stream of `rand()` results. -/
def runMain (backboneNodes infraNodes stopT : Nat) (rnd : Nat → Nat) : MainResult :=
  let st0 := initState
  let st1 := { st0 with events := st0.events ++
      [Ev.csmaAscii "mixed-wireless.tr",
       Ev.csmaPcapAll "mixed-wireless" true,
       Ev.csmaInstall st0.globalNodes] }
  let pr := mkParentAdhoc backboneNodes st1
  let parent0 := pr.1
  let st2 := { pr.2 with events := pr.2.events ++
      [Ev.ipv4Ascii "mixed-wireless.tr",
       Ev.wifiPcap "mixed-wireless" (parent0.devices.map Prod.fst) true] }
  let bl := buildLoop infraNodes parent0 0 backboneNodes st2
  let st3 := bl.2.2
  let apps := appLoop rnd st3.globalNodes st3.assigned stopT
  let st4 := { st3 with events := st3.events ++
      [Ev.flowMonitorInstallAll,
       Ev.animFile "mixed-wireless.xml",
       Ev.routeTracking "mixed-wireless-route-tracking.xml" 0 9 (1 / 4),
       Ev.simulatorRun (stopT : ℚ),
       Ev.serializeFlowMonitor "mixed-wireless-flow-monitor.xml"] }
  { parent := bl.1
    children := bl.2.1
    finalState := st4
    apps := apps }

/-- All networks built by the program, in construction order. -/
def netsOf (r : MainResult) : List AdHocNetwork := r.parent :: r.children

/-- The addresses a network's devices received. -/
def addrsOf (n : AdHocNetwork) : List Nat := n.ifaceAddrs.map (fun e => e.2.2)

/-- The /24 subnet of an address. -/
def subnetOf (a : Nat) : Nat := a / 256

/-- Placeholder network record (`List.getD` default). -/
def dummyNet : AdHocNetwork :=
  { backbone := []
    macType := ""
    channelId := 0
    devices := []
    routing := ""
    ipAddrs := { network := 0, addr := 0, base := 0 }
    netNumber := 0
    ifaceAddrs := [] }

/-- Node container of the `j`-th child network when the loop started at
index `i` with node counter `nid`. -/
def childBackboneAt (parent : AdHocNetwork) (nid inf i j : Nat) : List Nat :=
  idRange (nid + j * inf) inf ++ [parent.backbone.getD (i + j) 0]


/-! ## Derived definitions used by the theorems -/

/-- The /24 network number of base `192.168.0.0`: the upper 24 bits. -/
def baseNetwork : Nat := ipv4Address 192 168 0 0 / 256

/-- The simulator state after the csma tracing setup of `main`
(lines 221-226), before the parent network is built. -/
def stOne : SimState :=
  { initState with
    events := [Ev.csmaAscii "mixed-wireless.tr", Ev.csmaPcapAll "mixed-wireless" true,
               Ev.csmaInstall []] }

/-- The simulator state after the parent network and its tracing
(lines 228-230), before the per-backbone loop. -/
def stTwo (b : Nat) : SimState :=
  { (mkParentAdhoc b stOne).2 with
    events := (mkParentAdhoc b stOne).2.events ++
      [Ev.ipv4Ascii "mixed-wireless.tr",
       Ev.wifiPcap "mixed-wireless" ((mkParentAdhoc b stOne).1.devices.map Prod.fst) true] }

/-- The configuration events recorded before the per-backbone loop. -/
def preLoopEvents (b : Nat) : List Ev :=
  [Ev.csmaAscii "mixed-wireless.tr", Ev.csmaPcapAll "mixed-wireless" true,
   Ev.csmaInstall [], Ev.mobilityInstall rwpMobility (idRange 0 b),
   Ev.ipv4Ascii "mixed-wireless.tr", Ev.wifiPcap "mixed-wireless" (idRange 0 b) true]

/-- The configuration events recorded after the per-backbone and traffic
loops: flow monitor, animation, route tracking, the run, the dump. -/
def postLoopEvents (stopT : Nat) : List Ev :=
  [Ev.flowMonitorInstallAll, Ev.animFile "mixed-wireless.xml",
   Ev.routeTracking "mixed-wireless-route-tracking.xml" 0 9 (1 / 4),
   Ev.simulatorRun (stopT : ℚ),
   Ev.serializeFlowMonitor "mixed-wireless-flow-monitor.xml"]

/-- The spec's reading of an infrastructure-mode sub-network: its
`WifiMacHelper` is configured as an access point or as a station
(`ns3::ApWifiMac` / `ns3::StaWifiMac`).  Written from the spec's words so
it can be compared with what the source configures. -/
def usesInfraMac (n : AdHocNetwork) : Prop :=
  n.macType = "ns3::ApWifiMac" ∨ n.macType = "ns3::StaWifiMac"

/-- Placeholder flow (`List.getD` default). -/
def dummyFlow : Flow :=
  { tuple := { sourceAddress := "", destinationAddress := "" }
    stats := { txBytes := 0, rxBytes := 0, rxPackets := 0, lostPackets := 0,
               timeFirstTxPacket := 0, timeLastTxPacket := 0, delaySum := 0, jitterSum := 0 } }

/-- Placeholder data row (`List.getD` default). -/
def dummyRow : DataRow :=
  { sourceAddress := "", destinationAddress := "", txBytes := 0, rxBytes := 0,
    firstTxPacket := 0, lastTxPacket := 0, duration := 0, delay := 0, jitter := 0,
    lostPackets := 0, txBitrate := 0, averageTraffic := 0 }

/-- Placeholder application record (`List.getD` default). -/
def dummyApp : AppInstall :=
  { protocol := "", remoteAddr := none, remotePort := 0, onTime := "", offTime := "",
    packetSize := 0, dataRate := "", installedOn := [], startTime := 0, stopTime := 0 }

/-- A concrete flow used to instantiate the CSV theorems. -/
def sampleFlowA : Flow :=
  { tuple := { sourceAddress := "10.0.0.1", destinationAddress := "10.0.0.2" }
    stats := { txBytes := 1000, rxBytes := 900, rxPackets := 3, lostPackets := 1,
               timeFirstTxPacket := 3, timeLastTxPacket := 5, delaySum := 2, jitterSum := 1 } }

/-- A second concrete flow with the same source/destination pair. -/
def sampleFlowB : Flow :=
  { tuple := { sourceAddress := "10.0.0.1", destinationAddress := "10.0.0.2" }
    stats := { txBytes := 500, rxBytes := 500, rxPackets := 2, lostPackets := 0,
               timeFirstTxPacket := 4, timeLastTxPacket := 8, delaySum := 1, jitterSum := 2 } }

/-! ### Lemmas on the accumulator -/

theorem find?_bump_self (key : String) (v : ℚ) (acc : List (String × ℚ × ℚ)) :
    ((bump key v acc).find? (fun r => r.1 == key)) =
      some (key, (rowVal acc key).1 + v, (rowVal acc key).2 + 1) := by
  induction acc with
  | nil => simp [bump, rowVal]
  | cons hd tl ih =>
    obtain ⟨k, s, c⟩ := hd
    by_cases hk : k = key
    · subst hk
      simp [bump, rowVal, List.find?]
    · simp only [bump, if_neg hk]
      have hrv : rowVal ((k, s, c) :: tl) key = rowVal tl key := by
        simp [rowVal, List.find?_cons_of_neg, hk]
      rw [List.find?_cons_of_neg _ (by simp [hk]), ih, hrv]

theorem find?_bump_ne (key k' : String) (v : ℚ) (acc : List (String × ℚ × ℚ))
    (hne : k' ≠ key) :
    ((bump key v acc).find? (fun r => r.1 == k')) =
      (acc.find? (fun r => r.1 == k')) := by
  induction acc with
  | nil =>
    have hb : (key == k') = false := by simp [Ne.symm hne]
    simp [bump, List.find?, hb]
  | cons hd tl ih =>
    obtain ⟨k, s, c⟩ := hd
    by_cases hk : k = key
    · subst hk
      have : (k == k') = false := by simp [Ne.symm hne]
      simp [bump, List.find?, this, Ne.symm hne]
    · by_cases hk' : k = k'
      · subst hk'
        simp [bump, if_neg hk, List.find?]
      · simp only [bump, if_neg hk]
        rw [List.find?_cons_of_neg, List.find?_cons_of_neg, ih]
        · simp [hk']
        · simp [hk']

theorem rowVal_bump (key k' : String) (v : ℚ) (acc : List (String × ℚ × ℚ)) :
    rowVal (bump key v acc) k' =
      if k' = key then ((rowVal acc key).1 + v, (rowVal acc key).2 + 1)
      else rowVal acc k' := by
  by_cases h : k' = key
  · subst h
    simp [rowVal, find?_bump_self]
  · simp [rowVal, find?_bump_ne key k' v acc h, h]

/-- Keys present in the accumulator. -/
def accKeys (acc : List (String × ℚ × ℚ)) : List String := acc.map Prod.fst

theorem accKeys_bump (key : String) (v : ℚ) (acc : List (String × ℚ × ℚ)) :
    accKeys (bump key v acc) =
      if key ∈ accKeys acc then accKeys acc else accKeys acc ++ [key] := by
  induction acc with
  | nil => simp [bump, accKeys]
  | cons hd tl ih =>
    obtain ⟨k, s, c⟩ := hd
    by_cases hk : k = key
    · subst hk
      simp [bump, accKeys]
    · simp only [bump, if_neg hk, accKeys, List.map_cons] at *
      rw [ih]
      by_cases hmem : key ∈ tl.map Prod.fst
      · simp [hmem, Ne.symm hk]
      · simp [hmem, Ne.symm hk]

theorem accKeys_bump_nodup (key : String) (v : ℚ) (acc : List (String × ℚ × ℚ))
    (h : (accKeys acc).Nodup) : (accKeys (bump key v acc)).Nodup := by
  rw [accKeys_bump]
  by_cases hmem : key ∈ accKeys acc
  · simpa [hmem] using h
  · simp only [hmem, if_false]
    simpa [List.nodup_append, hmem] using h

theorem mem_accKeys_bump (key k' : String) (v : ℚ) (acc : List (String × ℚ × ℚ)) :
    k' ∈ accKeys (bump key v acc) ↔ k' = key ∨ k' ∈ accKeys acc := by
  rw [accKeys_bump]
  by_cases hmem : key ∈ accKeys acc
  · simp only [hmem, if_true]
    constructor
    · exact fun h => Or.inr h
    · rintro (rfl | h)
      · exact hmem
      · exact h
  · simp only [hmem, if_false, List.mem_append, List.mem_singleton]
    tauto

/-- The master characterisation of the accumulation fold: value and count
at any key, relative to the initial accumulator. -/
theorem rowVal_foldl (flows : List Flow) (acc : List (String × ℚ × ℚ)) (key : String) :
    rowVal (flows.foldl (fun a f => bump (flowKey f) (averageOf f.stats) a) acc) key =
      ((rowVal acc key).1 + sumAvg key flows,
       (rowVal acc key).2 + (countKey key flows : ℚ)) := by
  induction flows generalizing acc with
  | nil => simp [sumAvg, countKey]
  | cons f rest ih =>
    simp only [List.foldl_cons]
    rw [ih, rowVal_bump]
    by_cases h : key = flowKey f
    · subst h
      simp only [if_pos rfl, Prod.mk.injEq]
      refine ⟨?_, ?_⟩
      · simp only [sumAvg, List.filter_cons, if_pos rfl]
        simp [List.map_cons, List.sum_cons]
        ring
      · simp only [countKey, List.filter_cons, decide_True, if_true, List.length_cons]
        push_cast
        ring
    · simp only [if_neg h, Prod.mk.injEq]
      have hf : ¬ (flowKey f = key) := fun hc => h hc.symm
      refine ⟨?_, ?_⟩
      · simp [sumAvg, List.filter_cons, hf]
      · simp [countKey, List.filter_cons, hf]

theorem accKeys_foldl_nodup (flows : List Flow) (acc : List (String × ℚ × ℚ))
    (h : (accKeys acc).Nodup) :
    (accKeys (flows.foldl (fun a f => bump (flowKey f) (averageOf f.stats) a) acc)).Nodup := by
  induction flows generalizing acc with
  | nil => exact h
  | cons f rest ih =>
    simp only [List.foldl_cons]
    exact ih _ (accKeys_bump_nodup _ _ _ h)

theorem mem_accKeys_foldl (flows : List Flow) (acc : List (String × ℚ × ℚ)) (key : String) :
    key ∈ accKeys (flows.foldl (fun a f => bump (flowKey f) (averageOf f.stats) a) acc) ↔
      key ∈ flows.map flowKey ∨ key ∈ accKeys acc := by
  induction flows generalizing acc with
  | nil => simp
  | cons f rest ih =>
    simp only [List.foldl_cons, List.map_cons, List.mem_cons]
    rw [ih, mem_accKeys_bump]
    tauto

theorem resumenRows_nodupKeys (flows : List Flow) :
    (accKeys (resumenRows flows)).Nodup :=
  accKeys_foldl_nodup flows [] (by simp [accKeys])

theorem rowVal_resumenRows (flows : List Flow) (key : String) :
    rowVal (resumenRows flows) key = (sumAvg key flows, (countKey key flows : ℚ)) := by
  unfold resumenRows
  rw [rowVal_foldl]
  simp [rowVal]

theorem mem_accKeys_resumenRows (flows : List Flow) (key : String) :
    key ∈ accKeys (resumenRows flows) ↔ key ∈ flows.map flowKey := by
  unfold resumenRows
  rw [mem_accKeys_foldl]
  simp [accKeys]

/-! ### Lemmas on node id ranges -/

theorem idRange_length (start n : Nat) : (idRange start n).length = n := by
  simp [idRange]

theorem mem_idRange {start n x : Nat} :
    x ∈ idRange start n ↔ start ≤ x ∧ x < start + n := by
  simp only [idRange, List.mem_map, List.mem_range]
  constructor
  · rintro ⟨k, hk, rfl⟩
    omega
  · rintro ⟨h1, h2⟩
    exact ⟨x - start, by omega, by omega⟩

theorem idRange_nodup (start n : Nat) : (idRange start n).Nodup := by
  have hinj : Function.Injective (fun k => start + k) := by
    intro a b hab
    simpa using hab
  exact List.Nodup.map hinj (List.nodup_range n)

theorem idRange_getD (start n j : Nat) (h : j < n) :
    (idRange start n).getD j 0 = start + j := by
  rw [List.getD_eq_getElem _ _ (by simpa [idRange_length] using h)]
  simp [idRange]

theorem idRange_add (start a b : Nat) :
    idRange start (a + b) = idRange start a ++ idRange (start + a) b := by
  unfold idRange
  rw [List.range_add, List.map_append, List.map_map]
  congr 1
  apply List.map_congr_left
  intro k hk
  simp only [Function.comp_apply]
  omega

/-! ### Characterisation of `ipAssign` -/

theorem ipAssign_spec (nodes : List Nat) (h : Ipv4AddressHelper) (st : SimState)
    (hnd : nodes.Nodup) :
    (ipAssign h nodes st).1.network = h.network ∧
    (ipAssign h nodes st).1.addr = h.addr + nodes.length ∧
    (ipAssign h nodes st).1.base = h.base ∧
    (ipAssign h nodes st).2.1.length = nodes.length ∧
    (∀ j, j < nodes.length →
      (ipAssign h nodes st).2.1.getD j (0, 0, 0) =
        (nodes.getD j 0, st.ifCount (nodes.getD j 0),
         (h.network * 256 + h.addr + j) % 2 ^ 32)) ∧
    (ipAssign h nodes st).2.2.assigned = st.assigned ++ (ipAssign h nodes st).2.1 ∧
    (∀ m, (ipAssign h nodes st).2.2.ifCount m =
      if m ∈ nodes then st.ifCount m + 1 else st.ifCount m) ∧
    (ipAssign h nodes st).2.2.nextNodeId = st.nextNodeId ∧
    (ipAssign h nodes st).2.2.globalNodes = st.globalNodes ∧
    (ipAssign h nodes st).2.2.nextChannelId = st.nextChannelId ∧
    (ipAssign h nodes st).2.2.stackNodes = st.stackNodes ∧
    (ipAssign h nodes st).2.2.stackInstalls = st.stackInstalls ∧
    (ipAssign h nodes st).2.2.events = st.events := by
  induction nodes generalizing h st with
  | nil => simp [ipAssign]
  | cons n rest ih =>
    have hn : n ∉ rest := (List.nodup_cons.mp hnd).1
    have hrest : rest.Nodup := (List.nodup_cons.mp hnd).2
    set st1 : SimState :=
      { st with
        ifCount := fun m => if m = n then st.ifCount n + 1 else st.ifCount m
        assigned := st.assigned ++ [(n, st.ifCount n, (h.network * 256 + h.addr) % 2 ^ 32)] }
      with hst1
    obtain ⟨ihn, iha, ihb, ihl, ihgd, ihas, ihic, ih1, ih2, ih3, ih4, ih5, ih6⟩ :=
      ih { h with addr := h.addr + 1 } st1 hrest
    have hunfold :
        ipAssign h (n :: rest) st =
          ((ipAssign { h with addr := h.addr + 1 } rest st1).1,
           (n, st.ifCount n, (h.network * 256 + h.addr) % 2 ^ 32) ::
             (ipAssign { h with addr := h.addr + 1 } rest st1).2.1,
           (ipAssign { h with addr := h.addr + 1 } rest st1).2.2) := by
      simp [ipAssign, hst1]
    rw [hunfold]
    refine ⟨by simpa using ihn, by simp only [iha]; simp; omega, by simpa using ihb,
      by simp [ihl], ?_, ?_, ?_, by simpa [hst1] using ih1, by simpa [hst1] using ih2,
      by simpa [hst1] using ih3, by simpa [hst1] using ih4, by simpa [hst1] using ih5,
      by simpa [hst1] using ih6⟩
    · intro j hj
      cases j with
      | zero => simp
      | succ m =>
        have hm : m < rest.length := by simpa using hj
        rw [List.getD_cons_succ, List.getD_cons_succ, ihgd m hm]
        have hmem : rest.getD m 0 ∈ rest := by
          rw [List.getD_eq_getElem _ _ hm]
          exact List.getElem_mem _
        have hne : rest.getD m 0 ≠ n := fun hc => hn (hc ▸ hmem)
        have hic1 : st1.ifCount (rest.getD m 0) = st.ifCount (rest.getD m 0) := by
          rw [hst1]
          dsimp only
          rw [if_neg hne]
        rw [hic1]
        have harith : h.network * 256 + (h.addr + 1) + m = h.network * 256 + h.addr + (m + 1) := by
          omega
        simp [harith]
    · rw [ihas]
      simp [hst1]
    · intro m
      rw [ihic m]
      by_cases hmn : m = n
      · subst hmn
        simp [hst1, hn]
      · by_cases hmr : m ∈ rest
        · simp [hst1, hmn, hmr]
        · simp [hst1, hmn, hmr]

/-! ### Characterisation of the two constructors -/

theorem mkParentAdhoc_spec (b : Nat) (st : SimState) :
    (mkParentAdhoc b st).1.backbone = idRange st.nextNodeId b ∧
    (mkParentAdhoc b st).1.macType = "ns3::AdhocWifiMac" ∧
    (mkParentAdhoc b st).1.devices =
      (idRange st.nextNodeId b).map (fun n => (n, st.nextChannelId)) ∧
    (mkParentAdhoc b st).1.routing = "ns3::OlsrHelper" ∧
    (mkParentAdhoc b st).1.netNumber = ipv4Address 192 168 0 0 / 256 ∧
    (mkParentAdhoc b st).1.ipAddrs.network = ipv4Address 192 168 0 0 / 256 + 1 ∧
    (mkParentAdhoc b st).1.ipAddrs.addr = 1 ∧
    (mkParentAdhoc b st).1.ipAddrs.base = 1 ∧
    (mkParentAdhoc b st).1.ifaceAddrs.length = b ∧
    (∀ j, j < b → (mkParentAdhoc b st).1.ifaceAddrs.getD j (0, 0, 0) =
      (st.nextNodeId + j, 1,
       ((ipv4Address 192 168 0 0 / 256) * 256 + 1 + j) % 2 ^ 32)) ∧
    (mkParentAdhoc b st).2.nextNodeId = st.nextNodeId + b ∧
    (mkParentAdhoc b st).2.globalNodes = st.globalNodes ++ idRange st.nextNodeId b ∧
    (mkParentAdhoc b st).2.nextChannelId = st.nextChannelId + 1 ∧
    (mkParentAdhoc b st).2.assigned = st.assigned ++ (mkParentAdhoc b st).1.ifaceAddrs ∧
    (mkParentAdhoc b st).2.stackNodes = st.stackNodes ++ idRange st.nextNodeId b ∧
    (mkParentAdhoc b st).2.stackInstalls =
      st.stackInstalls ++ [(idRange st.nextNodeId b, "ns3::OlsrHelper")] ∧
    (mkParentAdhoc b st).2.events =
      st.events ++ [Ev.mobilityInstall rwpMobility (idRange st.nextNodeId b)] ∧
    (∀ m, (mkParentAdhoc b st).2.ifCount m =
      if m ∈ idRange st.nextNodeId b then 2 else st.ifCount m) := by
  set ids := idRange st.nextNodeId b with hids
  set st3 : SimState :=
    { st with
      nextNodeId := st.nextNodeId + b
      globalNodes := st.globalNodes ++ ids
      nextChannelId := st.nextChannelId + 1
      ifCount := fun m => if m ∈ ids then 1 else st.ifCount m
      stackNodes := st.stackNodes ++ ids
      stackInstalls := st.stackInstalls ++ [(ids, "ns3::OlsrHelper")] } with hst3
  have hmk : mkParentAdhoc b st =
      ({ backbone := ids
         macType := "ns3::AdhocWifiMac"
         channelId := st.nextChannelId
         devices := ids.map (fun n => (n, st.nextChannelId))
         routing := "ns3::OlsrHelper"
         ipAddrs := (ipAssign (setBase24 (ipv4Address 192 168 0 0)) ids st3).1.newNetwork
         netNumber := (setBase24 (ipv4Address 192 168 0 0)).network
         ifaceAddrs := (ipAssign (setBase24 (ipv4Address 192 168 0 0)) ids st3).2.1 },
       { (ipAssign (setBase24 (ipv4Address 192 168 0 0)) ids st3).2.2 with
         events := (ipAssign (setBase24 (ipv4Address 192 168 0 0)) ids st3).2.2.events ++
           [Ev.mobilityInstall rwpMobility ids] }) := rfl
  obtain ⟨sn, sa, sb, sl, sgd, sas, sic, s1, s2, s3, s4, s5, s6⟩ :=
    ipAssign_spec ids (setBase24 (ipv4Address 192 168 0 0)) st3 (idRange_nodup _ _)
  rw [hmk]
  refine ⟨rfl, rfl, rfl, rfl, rfl, ?_, ?_, ?_, by rw [sl, hids, idRange_length], ?_, ?_, ?_, ?_,
    ?_, ?_, ?_, ?_, ?_⟩
  · dsimp only [Ipv4AddressHelper.newNetwork]
    rw [sn]
    simp [setBase24]
  · dsimp only [Ipv4AddressHelper.newNetwork]
    rw [sb]
    simp [setBase24]
  · dsimp only [Ipv4AddressHelper.newNetwork]
    rw [sb]
    simp [setBase24]
  · intro j hj
    have hj' : j < ids.length := by
      rw [hids, idRange_length]
      exact hj
    rw [sgd j hj']
    have hmem : ids.getD j 0 ∈ ids := by
      rw [List.getD_eq_getElem _ _ hj']
      exact List.getElem_mem _
    have hic : st3.ifCount (ids.getD j 0) = 1 := by
      rw [hst3]
      dsimp only
      rw [if_pos hmem]
    rw [hic, hids, idRange_getD _ _ _ hj]
    simp [setBase24]
  · simp [s1, hst3]
  · simp [s2, hst3]
  · simp [s3, hst3]
  · simpa using sas
  · simp [s4, hst3]
  · simp [s5, hst3]
  · simp [s6, hst3]
  · intro m
    rw [sic m]
    have hic3 : st3.ifCount m = if m ∈ ids then 1 else st.ifCount m := by rw [hst3]
    rw [hic3]
    by_cases hm : m ∈ ids
    · simp [hm]
    · simp [hm]

theorem mkChildStep_spec (parent : AdHocNetwork) (infraNodes i : Nat) (st : SimState)
    (hp : parent.backbone.getD i 0 < st.nextNodeId) :
    (mkChildStep parent infraNodes i st).1.backbone =
      idRange st.nextNodeId infraNodes ++ [parent.backbone.getD i 0] ∧
    (mkChildStep parent infraNodes i st).1.macType = "ns3::AdhocWifiMac" ∧
    (mkChildStep parent infraNodes i st).1.devices =
      (idRange st.nextNodeId infraNodes ++ [parent.backbone.getD i 0]).map
        (fun n => (n, st.nextChannelId)) ∧
    (mkChildStep parent infraNodes i st).1.routing = parent.routing ∧
    (mkChildStep parent infraNodes i st).1.netNumber = parent.ipAddrs.network ∧
    (mkChildStep parent infraNodes i st).1.ipAddrs.network = parent.ipAddrs.network ∧
    (mkChildStep parent infraNodes i st).1.ipAddrs.addr =
      parent.ipAddrs.addr + (infraNodes + 1) ∧
    (mkChildStep parent infraNodes i st).1.ipAddrs.base = parent.ipAddrs.base ∧
    (mkChildStep parent infraNodes i st).1.ifaceAddrs.length = infraNodes + 1 ∧
    (∀ j, j < infraNodes →
      (mkChildStep parent infraNodes i st).1.ifaceAddrs.getD j (0, 0, 0) =
        (st.nextNodeId + j, 1,
         (parent.ipAddrs.network * 256 + parent.ipAddrs.addr + j) % 2 ^ 32)) ∧
    (mkChildStep parent infraNodes i st).1.ifaceAddrs.getD infraNodes (0, 0, 0) =
      (parent.backbone.getD i 0, st.ifCount (parent.backbone.getD i 0),
       (parent.ipAddrs.network * 256 + parent.ipAddrs.addr + infraNodes) % 2 ^ 32) ∧
    (mkChildStep parent infraNodes i st).2.1.backbone = parent.backbone ∧
    (mkChildStep parent infraNodes i st).2.1.routing = parent.routing ∧
    (mkChildStep parent infraNodes i st).2.1.macType = parent.macType ∧
    (mkChildStep parent infraNodes i st).2.1.channelId = parent.channelId ∧
    (mkChildStep parent infraNodes i st).2.1.devices = parent.devices ∧
    (mkChildStep parent infraNodes i st).2.1.netNumber = parent.netNumber ∧
    (mkChildStep parent infraNodes i st).2.1.ifaceAddrs = parent.ifaceAddrs ∧
    (mkChildStep parent infraNodes i st).2.1.ipAddrs.network = parent.ipAddrs.network + 1 ∧
    (mkChildStep parent infraNodes i st).2.1.ipAddrs.addr = parent.ipAddrs.base ∧
    (mkChildStep parent infraNodes i st).2.1.ipAddrs.base = parent.ipAddrs.base ∧
    (mkChildStep parent infraNodes i st).2.2.nextNodeId = st.nextNodeId + infraNodes ∧
    (mkChildStep parent infraNodes i st).2.2.globalNodes =
      st.globalNodes ++ idRange st.nextNodeId infraNodes ∧
    (mkChildStep parent infraNodes i st).2.2.nextChannelId = st.nextChannelId + 1 ∧
    (mkChildStep parent infraNodes i st).2.2.assigned =
      st.assigned ++ (mkChildStep parent infraNodes i st).1.ifaceAddrs ∧
    (mkChildStep parent infraNodes i st).2.2.stackNodes =
      st.stackNodes ++ idRange st.nextNodeId infraNodes ∧
    (mkChildStep parent infraNodes i st).2.2.stackInstalls =
      st.stackInstalls ++ [(idRange st.nextNodeId infraNodes, parent.routing)] ∧
    (mkChildStep parent infraNodes i st).2.2.events = st.events ++
      [Ev.mobilityInstall rwpMobility
         (idRange st.nextNodeId infraNodes ++ [parent.backbone.getD i 0]),
       Ev.pushReference (parent.backbone.getD i 0),
       Ev.ipv4Ascii "mixed-wireless.tr",
       Ev.wifiPcap "mixed-wireless"
         (idRange st.nextNodeId infraNodes ++ [parent.backbone.getD i 0]) true] ∧
    (∀ m, (mkChildStep parent infraNodes i st).2.2.ifCount m =
      if m ∈ idRange st.nextNodeId infraNodes then 2
      else if m = parent.backbone.getD i 0 then st.ifCount (parent.backbone.getD i 0) + 1
      else st.ifCount m) := by
  set pN := parent.backbone.getD i 0 with hpN
  set ids := idRange st.nextNodeId infraNodes with hids
  set cont := ids ++ [pN] with hcont
  have hpmem : pN ∉ ids := by
    rw [hids, mem_idRange]
    omega
  have hcnd : cont.Nodup := by
    rw [hcont, List.nodup_append]
    refine ⟨idRange_nodup _ _, List.nodup_singleton pN, ?_⟩
    intro a ha hb
    rw [List.mem_singleton] at hb
    subst hb
    exact hpmem ha
  set st3 : SimState :=
    { st with
      nextNodeId := st.nextNodeId + infraNodes
      globalNodes := st.globalNodes ++ ids
      nextChannelId := st.nextChannelId + 1
      ifCount := fun m => if m ∈ ids then 1 else st.ifCount m
      stackNodes := st.stackNodes ++ ids
      stackInstalls := st.stackInstalls ++ [(ids, parent.routing)] } with hst3
  have hmk : mkChildStep parent infraNodes i st =
      ({ backbone := cont
         macType := "ns3::AdhocWifiMac"
         channelId := st.nextChannelId
         devices := cont.map (fun n => (n, st.nextChannelId))
         routing := parent.routing
         ipAddrs := (ipAssign parent.ipAddrs cont st3).1
         netNumber := parent.ipAddrs.network
         ifaceAddrs := (ipAssign parent.ipAddrs cont st3).2.1 },
       { parent with ipAddrs := (ipAssign parent.ipAddrs cont st3).1.newNetwork },
       { (ipAssign parent.ipAddrs cont st3).2.2 with
         events := (ipAssign parent.ipAddrs cont st3).2.2.events ++
           [Ev.mobilityInstall rwpMobility cont,
            Ev.pushReference pN,
            Ev.ipv4Ascii "mixed-wireless.tr",
            Ev.wifiPcap "mixed-wireless" cont true] }) := rfl
  obtain ⟨sn, sa, sb, sl, sgd, sas, sic, s1, s2, s3, s4, s5, s6⟩ :=
    ipAssign_spec cont parent.ipAddrs st3 hcnd
  have hclen : cont.length = infraNodes + 1 := by
    simp [hcont, hids, idRange_length]
  rw [hmk]
  refine ⟨rfl, rfl, rfl, rfl, rfl, sn, by simpa [hclen] using sa, sb,
    by simpa [hclen] using sl, ?_, ?_, rfl, rfl, rfl, rfl, rfl, rfl, rfl,
    ?_, ?_, ?_, ?_, ?_, ?_, ?_, ?_, ?_, ?_, ?_⟩
  · intro j hj
    have hj' : j < cont.length := by omega
    rw [sgd j hj']
    have hgd : cont.getD j 0 = st.nextNodeId + j := by
      rw [hcont, List.getD_append _ _ _ _ (by simpa [hids, idRange_length] using hj),
        hids, idRange_getD _ _ _ hj]
    rw [hgd]
    have hmem : st.nextNodeId + j ∈ ids := by
      rw [hids, mem_idRange]
      omega
    have hic : st3.ifCount (st.nextNodeId + j) = 1 := by
      rw [hst3]
      dsimp only
      rw [if_pos hmem]
    rw [hic]
  · have hj' : infraNodes < cont.length := by omega
    rw [sgd infraNodes hj']
    have hgd : cont.getD infraNodes 0 = pN := by
      rw [hcont, List.getD_append_right _ _ _ _ (by simp [hids, idRange_length])]
      simp [hids, idRange_length]
    rw [hgd]
    have hic : st3.ifCount pN = st.ifCount pN := by
      rw [hst3]
      dsimp only
      rw [if_neg hpmem]
    rw [hic]
  · dsimp only [Ipv4AddressHelper.newNetwork]
    rw [sn]
  · dsimp only [Ipv4AddressHelper.newNetwork]
    rw [sb]
  · dsimp only [Ipv4AddressHelper.newNetwork]
    rw [sb]
  · simp [s1, hst3]
  · simp [s2, hst3]
  · simp [s3, hst3]
  · simpa using sas
  · simp [s4, hst3]
  · simp [s5, hst3]
  · simp [s6, hst3]
  · intro m
    rw [sic m]
    have hic3 : st3.ifCount m = if m ∈ ids then 1 else st.ifCount m := by rw [hst3]
    rw [hic3]
    have hmC : (m ∈ cont) ↔ (m ∈ ids ∨ m = pN) := by
      rw [hcont]
      simp
    by_cases hm : m ∈ ids
    · have hmp : m ≠ pN := fun hc => hpmem (hc ▸ hm)
      simp [hmC, hm, hmp]
    · by_cases hmp : m = pN
      · simp [hmp, hpmem, hcont]
      · simp [hmC, hm, hmp]

/-! ### Characterisation of the per-backbone construction loop -/

theorem buildLoop_spec (infraNodes : Nat) :
    ∀ (k : Nat) (parent : AdHocNetwork) (i : Nat) (st : SimState),
    (∀ x ∈ parent.backbone, x < st.nextNodeId) →
    parent.ipAddrs.addr = parent.ipAddrs.base →
    i + k ≤ parent.backbone.length →
    (buildLoop infraNodes parent i k st).2.1.length = k ∧
    (buildLoop infraNodes parent i k st).1.backbone = parent.backbone ∧
    (buildLoop infraNodes parent i k st).1.macType = parent.macType ∧
    (buildLoop infraNodes parent i k st).1.channelId = parent.channelId ∧
    (buildLoop infraNodes parent i k st).1.devices = parent.devices ∧
    (buildLoop infraNodes parent i k st).1.routing = parent.routing ∧
    (buildLoop infraNodes parent i k st).1.netNumber = parent.netNumber ∧
    (buildLoop infraNodes parent i k st).1.ifaceAddrs = parent.ifaceAddrs ∧
    (buildLoop infraNodes parent i k st).2.2.nextNodeId =
      st.nextNodeId + k * infraNodes ∧
    (buildLoop infraNodes parent i k st).2.2.globalNodes =
      st.globalNodes ++ idRange st.nextNodeId (k * infraNodes) ∧
    (∃ tail, (buildLoop infraNodes parent i k st).2.2.events = st.events ++ tail) ∧
    (∃ tailI, (buildLoop infraNodes parent i k st).2.2.stackInstalls =
      st.stackInstalls ++ tailI) ∧
    (∀ j, j < k →
      ((buildLoop infraNodes parent i k st).2.1.getD j dummyNet).backbone =
          childBackboneAt parent st.nextNodeId infraNodes i j ∧
      ((buildLoop infraNodes parent i k st).2.1.getD j dummyNet).macType =
          "ns3::AdhocWifiMac" ∧
      ((buildLoop infraNodes parent i k st).2.1.getD j dummyNet).routing =
          parent.routing ∧
      ((buildLoop infraNodes parent i k st).2.1.getD j dummyNet).netNumber =
          parent.ipAddrs.network + j ∧
      ((buildLoop infraNodes parent i k st).2.1.getD j dummyNet).ifaceAddrs.length =
          infraNodes + 1 ∧
      (∀ m, m < infraNodes →
        ((buildLoop infraNodes parent i k st).2.1.getD j dummyNet).ifaceAddrs.getD m (0, 0, 0) =
          (st.nextNodeId + j * infraNodes + m, 1,
           ((parent.ipAddrs.network + j) * 256 + parent.ipAddrs.base + m) % 2 ^ 32)) ∧
      (∃ c, ((buildLoop infraNodes parent i k st).2.1.getD j dummyNet).ifaceAddrs.getD
            infraNodes (0, 0, 0) =
          (parent.backbone.getD (i + j) 0, c,
           ((parent.ipAddrs.network + j) * 256 + parent.ipAddrs.base + infraNodes) % 2 ^ 32)) ∧
      List.IsInfix
        [Ev.mobilityInstall rwpMobility (childBackboneAt parent st.nextNodeId infraNodes i j),
         Ev.pushReference (parent.backbone.getD (i + j) 0)]
        (buildLoop infraNodes parent i k st).2.2.events ∧
      Ev.wifiPcap "mixed-wireless" (childBackboneAt parent st.nextNodeId infraNodes i j) true ∈
        (buildLoop infraNodes parent i k st).2.2.events ∧
      Ev.ipv4Ascii "mixed-wireless.tr" ∈ (buildLoop infraNodes parent i k st).2.2.events) ∧
    ((∀ n ∈ st.globalNodes, n ∈ st.stackNodes ∧ ∃ a, (n, 1, a) ∈ st.assigned) →
      (∀ n ∈ (buildLoop infraNodes parent i k st).2.2.globalNodes,
        n ∈ (buildLoop infraNodes parent i k st).2.2.stackNodes ∧
        ∃ a, (n, 1, a) ∈ (buildLoop infraNodes parent i k st).2.2.assigned)) := by
  intro k
  induction k with
  | zero =>
    intro parent i st hlt ha hik
    refine ⟨rfl, rfl, rfl, rfl, rfl, rfl, rfl, rfl, by simp [buildLoop],
      by simp [buildLoop, idRange], ⟨[], by simp [buildLoop]⟩, ⟨[], by simp [buildLoop]⟩, by
      intro j hj
      omega, ?_⟩
    intro hInv n hn
    exact hInv n hn
  | succ k ih =>
    intro parent i st hlt ha hik
    have hi : i < parent.backbone.length := by omega
    have hp : parent.backbone.getD i 0 < st.nextNodeId := by
      apply hlt
      rw [List.getD_eq_getElem _ _ hi]
      exact List.getElem_mem _
    obtain ⟨cb, cm, cd, cr, cn, cin, cia, cib, cil, cgd, cgl, pb, pr, pm, pc, pd, pn2, pi2,
        pin, pia, pib, t1, t2, t3, t4, t5, t6, t7, t8⟩ :=
      mkChildStep_spec parent infraNodes i st hp
    have hbl : buildLoop infraNodes parent i (k + 1) st =
        ((buildLoop infraNodes (mkChildStep parent infraNodes i st).2.1 (i + 1) k
            (mkChildStep parent infraNodes i st).2.2).1,
         (mkChildStep parent infraNodes i st).1 ::
           (buildLoop infraNodes (mkChildStep parent infraNodes i st).2.1 (i + 1) k
             (mkChildStep parent infraNodes i st).2.2).2.1,
         (buildLoop infraNodes (mkChildStep parent infraNodes i st).2.1 (i + 1) k
           (mkChildStep parent infraNodes i st).2.2).2.2) := rfl
    have hlt' : ∀ x ∈ (mkChildStep parent infraNodes i st).2.1.backbone,
        x < (mkChildStep parent infraNodes i st).2.2.nextNodeId := by
      intro x hx
      rw [pb] at hx
      rw [t1]
      have := hlt x hx
      omega
    have ha' : (mkChildStep parent infraNodes i st).2.1.ipAddrs.addr =
        (mkChildStep parent infraNodes i st).2.1.ipAddrs.base := by
      rw [pia, pib]
    have hik' : (i + 1) + k ≤ (mkChildStep parent infraNodes i st).2.1.backbone.length := by
      rw [pb]
      omega
    obtain ⟨il, fb, fm, fc, fd, fr, fn, fi, inid, igl, ⟨tail, itail⟩, ⟨tailI, itailI⟩,
        ichild, iinv⟩ :=
      ih (mkChildStep parent infraNodes i st).2.1 (i + 1)
        (mkChildStep parent infraNodes i st).2.2 hlt' ha' hik'
    rw [hbl]
    refine ⟨by simpa using il, by rw [fb, pb], by rw [fm, pm], by rw [fc, pc],
      by rw [fd, pd], by rw [fr, pr], by rw [fn, pn2], by rw [fi, pi2], ?_, ?_, ?_, ?_, ?_, ?_⟩
    · rw [inid, t1]
      ring
    · rw [igl, t2, t1]
      have harr : (k + 1) * infraNodes = infraNodes + k * infraNodes := by ring
      rw [harr, idRange_add, List.append_assoc]
    · refine ⟨[Ev.mobilityInstall rwpMobility
          (idRange st.nextNodeId infraNodes ++ [parent.backbone.getD i 0]),
        Ev.pushReference (parent.backbone.getD i 0),
        Ev.ipv4Ascii "mixed-wireless.tr",
        Ev.wifiPcap "mixed-wireless"
          (idRange st.nextNodeId infraNodes ++ [parent.backbone.getD i 0]) true] ++ tail, ?_⟩
      rw [itail, t7, List.append_assoc]
    · refine ⟨[(idRange st.nextNodeId infraNodes, parent.routing)] ++ tailI, ?_⟩
      rw [itailI, t6, List.append_assoc]
    · intro j hj
      cases j with
      | zero =>
        have hcb0 : childBackboneAt parent st.nextNodeId infraNodes i 0 =
            idRange st.nextNodeId infraNodes ++ [parent.backbone.getD i 0] := by
          simp [childBackboneAt]
        refine ⟨by rw [List.getD_cons_zero, cb, hcb0], by rw [List.getD_cons_zero]; exact cm,
          by rw [List.getD_cons_zero]; exact cr, by rw [List.getD_cons_zero, cn]; simp,
          by rw [List.getD_cons_zero]; exact cil, ?_, ?_, ?_, ?_, ?_⟩
        · intro m hm
          rw [List.getD_cons_zero, cgd m hm, ha]
          have h1 : st.nextNodeId + 0 * infraNodes + m = st.nextNodeId + m := by ring
          have h2 : (parent.ipAddrs.network + 0) * 256 + parent.ipAddrs.base + m =
              parent.ipAddrs.network * 256 + parent.ipAddrs.base + m := by ring
          rw [h1, h2]
        · refine ⟨st.ifCount (parent.backbone.getD i 0), ?_⟩
          rw [List.getD_cons_zero, cgl, ha]
          have h2 : (parent.ipAddrs.network + 0) * 256 + parent.ipAddrs.base + infraNodes =
              parent.ipAddrs.network * 256 + parent.ipAddrs.base + infraNodes := by ring
          rw [h2]
          simp
        · rw [itail, t7, hcb0]
          exact ⟨st.events,
            [Ev.ipv4Ascii "mixed-wireless.tr",
             Ev.wifiPcap "mixed-wireless"
               (idRange st.nextNodeId infraNodes ++ [parent.backbone.getD i 0]) true] ++ tail,
            by simp⟩
        · rw [itail, t7, hcb0]
          simp
        · rw [itail, t7]
          simp
      | succ m =>
        have hm : m < k := by omega
        obtain ⟨jb, jm, jr, jn, jl, jgd, jgl, jinf, jw, ja⟩ := ichild m hm
        have hcbeq : childBackboneAt (mkChildStep parent infraNodes i st).2.1
            (mkChildStep parent infraNodes i st).2.2.nextNodeId infraNodes (i + 1) m =
            childBackboneAt parent st.nextNodeId infraNodes i (m + 1) := by
          rw [childBackboneAt, childBackboneAt, pb, t1]
          have h1 : st.nextNodeId + infraNodes + m * infraNodes =
              st.nextNodeId + (m + 1) * infraNodes := by ring
          have h2 : i + 1 + m = i + (m + 1) := by ring
          rw [h1, h2]
        refine ⟨by rw [List.getD_cons_succ, jb, hcbeq], by rw [List.getD_cons_succ]; exact jm,
          by rw [List.getD_cons_succ, jr, pr], ?_, by rw [List.getD_cons_succ]; exact jl,
          ?_, ?_, ?_, ?_, ?_⟩
        · rw [List.getD_cons_succ, jn, pin]
          ring
        · intro mm hmm
          rw [List.getD_cons_succ, jgd mm hmm, t1, pin, pib]
          have h1 : st.nextNodeId + infraNodes + m * infraNodes + mm =
              st.nextNodeId + (m + 1) * infraNodes + mm := by ring
          have h2 : (parent.ipAddrs.network + 1 + m) * 256 + parent.ipAddrs.base + mm =
              (parent.ipAddrs.network + (m + 1)) * 256 + parent.ipAddrs.base + mm := by ring
          rw [h1, h2]
        · obtain ⟨c, hc⟩ := jgl
          refine ⟨c, ?_⟩
          rw [List.getD_cons_succ, hc, pb, pin, pib]
          have h2 : (parent.ipAddrs.network + 1 + m) * 256 + parent.ipAddrs.base + infraNodes =
              (parent.ipAddrs.network + (m + 1)) * 256 + parent.ipAddrs.base + infraNodes := by
            ring
          have h3 : i + 1 + m = i + (m + 1) := by ring
          rw [h2, h3]
        · rw [← hcbeq]
          have h3 : parent.backbone.getD (i + (m + 1)) 0 =
              (mkChildStep parent infraNodes i st).2.1.backbone.getD (i + 1 + m) 0 := by
            rw [pb]
            have : i + 1 + m = i + (m + 1) := by ring
            rw [this]
          rw [h3]
          exact jinf
        · rw [← hcbeq]
          exact jw
        · exact ja
    · intro hInv
      have hInv' : ∀ n ∈ (mkChildStep parent infraNodes i st).2.2.globalNodes,
          n ∈ (mkChildStep parent infraNodes i st).2.2.stackNodes ∧
          ∃ a, (n, 1, a) ∈ (mkChildStep parent infraNodes i st).2.2.assigned := by
        intro n hn
        rw [t2, List.mem_append] at hn
        rcases hn with hold | hnew
        · obtain ⟨hs, a, hass⟩ := hInv n hold
          refine ⟨by rw [t5]; exact List.mem_append_left _ hs,
            a, by rw [t4]; exact List.mem_append_left _ hass⟩
        · refine ⟨by rw [t5]; exact List.mem_append_right _ hnew, ?_⟩
          rw [mem_idRange] at hnew
          obtain ⟨h1, h2⟩ := hnew
          have hj : n - st.nextNodeId < infraNodes := by omega
          have hgd := cgd (n - st.nextNodeId) hj
          have hn' : st.nextNodeId + (n - st.nextNodeId) = n := by omega
          rw [hn'] at hgd
          refine ⟨(parent.ipAddrs.network * 256 + parent.ipAddrs.addr +
            (n - st.nextNodeId)) % 2 ^ 32, ?_⟩
          rw [t4]
          apply List.mem_append_right
          rw [← hgd]
          rw [List.getD_eq_getElem _ _ (by rw [cil]; omega)]
          exact List.getElem_mem _
      exact iinv hInv'

/-! ### Characterisation of `runMain` -/

theorem runMain_decomp (b inf stopT : Nat) (rnd : Nat → Nat) :
    (runMain b inf stopT rnd).parent =
      (buildLoop inf (mkParentAdhoc b stOne).1 0 b (stTwo b)).1 ∧
    (runMain b inf stopT rnd).children =
      (buildLoop inf (mkParentAdhoc b stOne).1 0 b (stTwo b)).2.1 ∧
    (runMain b inf stopT rnd).finalState.globalNodes =
      (buildLoop inf (mkParentAdhoc b stOne).1 0 b (stTwo b)).2.2.globalNodes ∧
    (runMain b inf stopT rnd).finalState.assigned =
      (buildLoop inf (mkParentAdhoc b stOne).1 0 b (stTwo b)).2.2.assigned ∧
    (runMain b inf stopT rnd).finalState.stackNodes =
      (buildLoop inf (mkParentAdhoc b stOne).1 0 b (stTwo b)).2.2.stackNodes ∧
    (runMain b inf stopT rnd).finalState.stackInstalls =
      (buildLoop inf (mkParentAdhoc b stOne).1 0 b (stTwo b)).2.2.stackInstalls ∧
    (runMain b inf stopT rnd).finalState.events =
      (buildLoop inf (mkParentAdhoc b stOne).1 0 b (stTwo b)).2.2.events ++
        postLoopEvents stopT ∧
    (runMain b inf stopT rnd).apps =
      appLoop rnd (buildLoop inf (mkParentAdhoc b stOne).1 0 b (stTwo b)).2.2.globalNodes
        (buildLoop inf (mkParentAdhoc b stOne).1 0 b (stTwo b)).2.2.assigned stopT :=
  ⟨rfl, rfl, rfl, rfl, rfl, rfl, rfl, rfl⟩

theorem stTwo_spec (b : Nat) :
    (stTwo b).nextNodeId = b ∧
    (stTwo b).nextChannelId = 1 ∧
    (stTwo b).globalNodes = idRange 0 b ∧
    (stTwo b).assigned = (mkParentAdhoc b stOne).1.ifaceAddrs ∧
    (stTwo b).stackNodes = idRange 0 b ∧
    (stTwo b).stackInstalls = [(idRange 0 b, "ns3::OlsrHelper")] ∧
    (stTwo b).events = preLoopEvents b := by
  obtain ⟨p1, p2, p3, p4, p5, p6n, p6a, p6b, p7, p8, s1, s2, s3, s4, s5, s6, s7, s8⟩ :=
    mkParentAdhoc_spec b stOne
  have h0 : stOne.nextNodeId = 0 := rfl
  have hids : idRange stOne.nextNodeId b = idRange 0 b := by rw [h0]
  refine ⟨?_, ?_, ?_, ?_, ?_, ?_, ?_⟩
  · show (mkParentAdhoc b stOne).2.nextNodeId = b
    rw [s1, h0]
    omega
  · show (mkParentAdhoc b stOne).2.nextChannelId = 1
    rw [s3]
    rfl
  · show (mkParentAdhoc b stOne).2.globalNodes = idRange 0 b
    rw [s2, hids]
    rfl
  · show (mkParentAdhoc b stOne).2.assigned = (mkParentAdhoc b stOne).1.ifaceAddrs
    rw [s4]
    rfl
  · show (mkParentAdhoc b stOne).2.stackNodes = idRange 0 b
    rw [s5, hids]
    rfl
  · show (mkParentAdhoc b stOne).2.stackInstalls = [(idRange 0 b, "ns3::OlsrHelper")]
    rw [s6, hids]
    rfl
  · show (mkParentAdhoc b stOne).2.events ++
      [Ev.ipv4Ascii "mixed-wireless.tr",
       Ev.wifiPcap "mixed-wireless" ((mkParentAdhoc b stOne).1.devices.map Prod.fst) true] =
      preLoopEvents b
    rw [s7, p3, hids]
    show [Ev.csmaAscii "mixed-wireless.tr", Ev.csmaPcapAll "mixed-wireless" true,
        Ev.csmaInstall []] ++ [Ev.mobilityInstall rwpMobility (idRange 0 b)] ++
        [Ev.ipv4Ascii "mixed-wireless.tr",
         Ev.wifiPcap "mixed-wireless"
           (((idRange 0 b).map (fun n => (n, stOne.nextChannelId))).map Prod.fst) true] =
      preLoopEvents b
    rw [List.map_map]
    have hmm : ((idRange 0 b).map (Prod.fst ∘ fun n => (n, stOne.nextChannelId))) =
        idRange 0 b := by
      apply List.map_congr_left ?_ |>.trans (List.map_id _)
      intro a ha
      rfl
    rw [hmm]
    rfl

theorem runMain_spec (b inf stopT : Nat) (rnd : Nat → Nat) :
    (runMain b inf stopT rnd).parent.backbone = idRange 0 b ∧
    (runMain b inf stopT rnd).parent.macType = "ns3::AdhocWifiMac" ∧
    (runMain b inf stopT rnd).parent.channelId = 0 ∧
    (runMain b inf stopT rnd).parent.devices = (idRange 0 b).map (fun n => (n, 0)) ∧
    (runMain b inf stopT rnd).parent.routing = "ns3::OlsrHelper" ∧
    (runMain b inf stopT rnd).parent.netNumber = baseNetwork ∧
    (runMain b inf stopT rnd).parent.ifaceAddrs.length = b ∧
    (∀ j, j < b → (runMain b inf stopT rnd).parent.ifaceAddrs.getD j (0, 0, 0) =
      (j, 1, (baseNetwork * 256 + 1 + j) % 2 ^ 32)) ∧
    (runMain b inf stopT rnd).children.length = b ∧
    (runMain b inf stopT rnd).finalState.globalNodes = idRange 0 (b + b * inf) ∧
    ((idRange 0 b, "ns3::OlsrHelper") ∈ (runMain b inf stopT rnd).finalState.stackInstalls) ∧
    (∀ j, j < b →
      ((runMain b inf stopT rnd).children.getD j dummyNet).backbone =
        idRange (b + j * inf) inf ++ [j] ∧
      ((runMain b inf stopT rnd).children.getD j dummyNet).macType = "ns3::AdhocWifiMac" ∧
      ((runMain b inf stopT rnd).children.getD j dummyNet).routing = "ns3::OlsrHelper" ∧
      ((runMain b inf stopT rnd).children.getD j dummyNet).netNumber = baseNetwork + 1 + j ∧
      ((runMain b inf stopT rnd).children.getD j dummyNet).ifaceAddrs.length = inf + 1 ∧
      (∀ m, m < inf →
        ((runMain b inf stopT rnd).children.getD j dummyNet).ifaceAddrs.getD m (0, 0, 0) =
          (b + j * inf + m, 1, ((baseNetwork + 1 + j) * 256 + 1 + m) % 2 ^ 32)) ∧
      (∃ c, ((runMain b inf stopT rnd).children.getD j dummyNet).ifaceAddrs.getD
          inf (0, 0, 0) =
        (j, c, ((baseNetwork + 1 + j) * 256 + 1 + inf) % 2 ^ 32))) ∧
    (∃ mid : List Ev,
      (runMain b inf stopT rnd).finalState.events =
        preLoopEvents b ++ mid ++ postLoopEvents stopT ∧
      (∀ j, j < b →
        Ev.wifiPcap "mixed-wireless"
          (((runMain b inf stopT rnd).children.getD j dummyNet).backbone) true ∈
          preLoopEvents b ++ mid ∧
        List.IsInfix
          [Ev.mobilityInstall rwpMobility
             (((runMain b inf stopT rnd).children.getD j dummyNet).backbone),
           Ev.pushReference j] (preLoopEvents b ++ mid))) ∧
    (∀ n ∈ (runMain b inf stopT rnd).finalState.globalNodes,
      n ∈ (runMain b inf stopT rnd).finalState.stackNodes ∧
      ∃ a, (n, 1, a) ∈ (runMain b inf stopT rnd).finalState.assigned) ∧
    (runMain b inf stopT rnd).apps =
      appLoop rnd (runMain b inf stopT rnd).finalState.globalNodes
        (runMain b inf stopT rnd).finalState.assigned stopT := by
  obtain ⟨rp, rc, rg, ras, rsn, rsi, rev, rap⟩ := runMain_decomp b inf stopT rnd
  obtain ⟨p1, p2, p3, p4, p5, p6n, p6a, p6b, p7, p8, s1, s2, s3, s4, s5, s6, s7, s8⟩ :=
    mkParentAdhoc_spec b stOne
  obtain ⟨w1, w2, w3, w4, w5, w6, w7⟩ := stTwo_spec b
  have h0 : stOne.nextNodeId = 0 := rfl
  have hpb : (mkParentAdhoc b stOne).1.backbone = idRange 0 b := by rw [p1, h0]
  have hlt : ∀ x ∈ (mkParentAdhoc b stOne).1.backbone, x < (stTwo b).nextNodeId := by
    intro x hx
    rw [hpb, mem_idRange] at hx
    rw [w1]
    omega
  have ha : (mkParentAdhoc b stOne).1.ipAddrs.addr = (mkParentAdhoc b stOne).1.ipAddrs.base := by
    rw [p6a, p6b]
  have hik : 0 + b ≤ (mkParentAdhoc b stOne).1.backbone.length := by
    rw [hpb, idRange_length]
    omega
  obtain ⟨bL, bB1, bB2, bB3, bB4, bB5, bB6, bB7, bNID, bGL, ⟨tail, bTL⟩, ⟨tailI, bTI⟩,
      bCH, bINV⟩ := buildLoop_spec inf b (mkParentAdhoc b stOne).1 0 (stTwo b) hlt ha hik
  have hblev : (buildLoop inf (mkParentAdhoc b stOne).1 0 b (stTwo b)).2.2.events =
      preLoopEvents b ++ tail := by
    rw [bTL, w7]
  have hgd0 : ∀ j, j < b → (mkParentAdhoc b stOne).1.backbone.getD j 0 = j := by
    intro j hj
    rw [hpb, idRange_getD _ _ _ hj]
    omega
  have hchild : ∀ j, j < b →
      ((runMain b inf stopT rnd).children.getD j dummyNet).backbone =
        idRange (b + j * inf) inf ++ [j] ∧
      ((runMain b inf stopT rnd).children.getD j dummyNet).macType = "ns3::AdhocWifiMac" ∧
      ((runMain b inf stopT rnd).children.getD j dummyNet).routing = "ns3::OlsrHelper" ∧
      ((runMain b inf stopT rnd).children.getD j dummyNet).netNumber = baseNetwork + 1 + j ∧
      ((runMain b inf stopT rnd).children.getD j dummyNet).ifaceAddrs.length = inf + 1 ∧
      (∀ m, m < inf →
        ((runMain b inf stopT rnd).children.getD j dummyNet).ifaceAddrs.getD m (0, 0, 0) =
          (b + j * inf + m, 1, ((baseNetwork + 1 + j) * 256 + 1 + m) % 2 ^ 32)) ∧
      (∃ c, ((runMain b inf stopT rnd).children.getD j dummyNet).ifaceAddrs.getD
          inf (0, 0, 0) =
        (j, c, ((baseNetwork + 1 + j) * 256 + 1 + inf) % 2 ^ 32)) := by
    intro j hj
    obtain ⟨jb, jm, jr, jn, jl, jgd, jgl, jinf, jw, ja⟩ := bCH j hj
    have hcbform : childBackboneAt (mkParentAdhoc b stOne).1 (stTwo b).nextNodeId inf 0 j =
        idRange (b + j * inf) inf ++ [j] := by
      rw [childBackboneAt, w1]
      have hz : 0 + j = j := Nat.zero_add j
      rw [hz, hgd0 j hj]
    refine ⟨by rw [rc, jb, hcbform], by rw [rc]; exact jm,
      by rw [rc, jr, p4], ?_, by rw [rc]; exact jl, ?_, ?_⟩
    · rw [rc, jn, p6n]
      rfl
    · intro m hm
      rw [rc, jgd m hm, w1, p6n, p6b]
      rfl
    · obtain ⟨c, hc⟩ := jgl
      refine ⟨c, ?_⟩
      rw [rc, hc, p6n, p6b]
      have hz : 0 + j = j := Nat.zero_add j
      rw [hz, hgd0 j hj]
      rfl
  refine ⟨?_, by rw [rp, bB2, p2], by rw [rp, bB3]; rfl, ?_, by rw [rp, bB5, p4], ?_, ?_, ?_,
    by rw [rc, bL], ?_, ?_, hchild, ?_, ?_, ?_⟩
  · rw [rp, bB1, hpb]
  · rw [rp, bB4, p3]
    rfl
  · rw [rp, bB6, p5]
    rfl
  · rw [rp, bB7, p7]
  · intro j hj
    rw [rp, bB7, p8 j hj, h0]
    have hz : 0 + j = j := Nat.zero_add j
    rw [hz]
    rfl
  · rw [rg, bGL, w3, w1]
    have hsplit : idRange 0 (b + b * inf) = idRange 0 b ++ idRange (0 + b) (b * inf) :=
      idRange_add 0 b (b * inf)
    have hz : 0 + b = b := Nat.zero_add b
    rw [hsplit, hz]
  · rw [rsi, bTI, w6]
    exact List.mem_append_left _ (List.mem_singleton_self _)
  · refine ⟨tail, by rw [rev, hblev], ?_⟩
    intro j hj
    obtain ⟨jb, jm, jr, jn, jl, jgd, jgl, jinf, jw, ja⟩ := bCH j hj
    have hcb : ((runMain b inf stopT rnd).children.getD j dummyNet).backbone =
        childBackboneAt (mkParentAdhoc b stOne).1 (stTwo b).nextNodeId inf 0 j := by
      rw [rc, jb]
    constructor
    · rw [hcb, ← hblev]
      exact jw
    · have hpj : (mkParentAdhoc b stOne).1.backbone.getD (0 + j) 0 = j := by
        have hz : 0 + j = j := Nat.zero_add j
        rw [hz, hgd0 j hj]
      rw [hpj] at jinf
      rw [hcb, ← hblev]
      exact jinf
  · intro n hn
    have hInv2 : ∀ m ∈ (stTwo b).globalNodes,
        m ∈ (stTwo b).stackNodes ∧ ∃ a, (m, 1, a) ∈ (stTwo b).assigned := by
      intro m hm
      rw [w3, mem_idRange] at hm
      refine ⟨by rw [w5, mem_idRange]; omega, ?_⟩
      have hm' : m < b := by omega
      have hgd := p8 m hm'
      rw [h0] at hgd
      have hz : 0 + m = m := Nat.zero_add m
      rw [hz] at hgd
      refine ⟨(baseNetwork * 256 + 1 + m) % 2 ^ 32, ?_⟩
      rw [w4]
      have hgd2 : (mkParentAdhoc b stOne).1.ifaceAddrs.getD m (0, 0, 0) =
          (m, 1, (baseNetwork * 256 + 1 + m) % 2 ^ 32) := hgd
      rw [← hgd2]
      rw [List.getD_eq_getElem _ _ (by rw [p7]; omega)]
      exact List.getElem_mem _
    have hall := bINV hInv2
    rw [rg] at hn
    obtain ⟨hs, a, haa⟩ := hall n hn
    exact ⟨by rw [rsn]; exact hs, a, by rw [ras]; exact haa⟩
  · rw [rap, rg, ras]

/-! ### Small helper lemmas for the claim theorems -/

theorem map_fst_pair (l : List Nat) (c : Nat) :
    (l.map (fun n => (n, c))).map Prod.fst = l := by
  rw [List.map_map]
  refine (List.map_congr_left ?_).trans (List.map_id _)
  intro a ha
  rfl

theorem mem_getD_of_mem {α : Type} (l : List α) (e d : α) (h : e ∈ l) :
    ∃ idx, idx < l.length ∧ l.getD idx d = e := by
  obtain ⟨n, hn, he⟩ := List.mem_iff_getElem.mp h
  exact ⟨n, hn, by rw [List.getD_eq_getElem _ _ hn, he]⟩

theorem idRange_mul_split (s inf k n : Nat) (h : n ∈ idRange s (k * inf)) :
    ∃ j, j < k ∧ n ∈ idRange (s + j * inf) inf := by
  rw [mem_idRange] at h
  obtain ⟨h1, h2⟩ := h
  have hinf : 0 < inf := by
    rcases Nat.eq_zero_or_pos inf with h0 | h0
    · subst h0
      omega
    · exact h0
  set q := (n - s) / inf with hq
  have hdm : inf * q + (n - s) % inf = n - s := Nat.div_add_mod (n - s) inf
  have hr : (n - s) % inf < inf := Nat.mod_lt _ hinf
  refine ⟨q, ?_, ?_⟩
  · rw [hq, Nat.div_lt_iff_lt_mul hinf]
    calc n - s < k * inf := by omega
    _ = k * inf := rfl
  · rw [mem_idRange]
    constructor
    · have h4 : inf * q ≤ n - s := Nat.le.intro hdm
      calc s + q * inf = s + inf * q := by ring
      _ ≤ s + (n - s) := Nat.add_le_add_left h4 s
      _ = n := by omega
    · have h3 : n - s < inf * q + inf := by
        rw [← hdm]
        exact Nat.add_lt_add_left hr (inf * q)
      calc n = s + (n - s) := by omega
      _ < s + (inf * q + inf) := Nat.add_lt_add_left h3 s
      _ = s + q * inf + inf := by ring

theorem isInfix_append_right {α : Type} {l L : List α} (t : List α)
    (h : List.IsInfix l L) : List.IsInfix l (L ++ t) := by
  obtain ⟨s1, t1, hst⟩ := h
  exact ⟨s1, t1 ++ t, by rw [← hst]; simp⟩

theorem filter_key_singleton {α : Type} (key : String) :
    ∀ (l : List (String × α)), (l.map Prod.fst).Nodup →
    ∀ r, l.find? (fun x => x.1 == key) = some r →
    l.filter (fun x => x.1 == key) = [r]
  | [], _, r, hr => by simp [List.find?] at hr
  | h :: tl, hnd, r, hr => by
    by_cases hk : h.1 = key
    · have hfind : (h :: tl).find? (fun x => x.1 == key) = some h := by
        rw [List.find?_cons_of_pos]
        simp [hk]
      rw [hfind] at hr
      obtain rfl : h = r := by injection hr
      have hnd1 : (h.1 :: tl.map Prod.fst).Nodup := by
        rw [List.map_cons] at hnd
        exact hnd
      have hkeys : key ∉ tl.map Prod.fst := by
        have hh := (List.nodup_cons.mp hnd1).1
        rwa [hk] at hh
      have htl : tl.filter (fun x => x.1 == key) = [] := by
        rw [List.filter_eq_nil_iff]
        intro a ha
        simp only [beq_iff_eq]
        intro hc
        exact hkeys (by
          rw [← hc]
          exact List.mem_map_of_mem Prod.fst ha)
      rw [List.filter_cons_of_pos (by simp [hk]), htl]
    · have hnd1 : (h.1 :: tl.map Prod.fst).Nodup := by
        rw [List.map_cons] at hnd
        exact hnd
      have hnd' : (tl.map Prod.fst).Nodup := (List.nodup_cons.mp hnd1).2
      have hfind : tl.find? (fun x => x.1 == key) = some r := by
        rwa [List.find?_cons_of_neg _ (by simp [hk])] at hr
      rw [List.filter_cons_of_neg (by simp [hk])]
      exact filter_key_singleton key tl hnd' r hfind

/-! ### The claims -/

/-- C2: the program creates `backboneNodes` backbone nodes (default 6,
overridable on the command line) joined in a single 802.11 ad-hoc
network: the mac type of the backbone network is `ns3::AdhocWifiMac`,
its devices cover exactly the backbone container and all share the one
channel created for it, and the internet stack installed on the backbone
container carries the OLSR routing helper — the program only selects and
wires the helper, so the embedding records the selection. -/
theorem c2_backbone_adhoc_olsr (b inf stopT : Nat) (rnd : Nat → Nat) :
    (runMain b inf stopT rnd).parent.backbone.length = b ∧
    (runMain b inf stopT rnd).parent.macType = "ns3::AdhocWifiMac" ∧
    (runMain b inf stopT rnd).parent.devices.map Prod.fst =
      (runMain b inf stopT rnd).parent.backbone ∧
    (∀ d ∈ (runMain b inf stopT rnd).parent.devices,
      d.2 = (runMain b inf stopT rnd).parent.channelId) ∧
    (runMain b inf stopT rnd).parent.routing = "ns3::OlsrHelper" ∧
    ((runMain b inf stopT rnd).parent.backbone, "ns3::OlsrHelper") ∈
      (runMain b inf stopT rnd).finalState.stackInstalls ∧
    cmdLineValue none defaultBackboneNodes = 6 ∧
    (∀ v, cmdLineValue (some v) defaultBackboneNodes = v) := by
  obtain ⟨r1, r2, r3, r4, r5, r6, r7, r8, r9, r10, r11, r12, r13, r14, r15⟩ :=
    runMain_spec b inf stopT rnd
  refine ⟨by rw [r1, idRange_length], r2, ?_, ?_, r5, ?_, rfl, fun v => rfl⟩
  · rw [r4, r1, map_fst_pair]
  · intro d hd
    rw [r4] at hd
    rw [r3]
    obtain ⟨n, hn, rfl⟩ := List.mem_map.mp hd
    rfl
  · rw [r1]
    exact r11

/-- C2 witness at the defaults. -/
theorem c2_backbone_adhoc_olsr_witness :
    (runMain 6 6 10 (fun _ => 0)).parent.backbone.length = 6 ∧
    cmdLineValue (some 9) defaultBackboneNodes = 9 :=
  ⟨(c2_backbone_adhoc_olsr 6 6 10 (fun _ => 0)).1,
   (c2_backbone_adhoc_olsr 6 6 10 (fun _ => 0)).2.2.2.2.2.2.2 9⟩

/-- C1 as stated is false: in the default run the first child sub-network
exists, and its `WifiMacHelper` type is `ns3::AdhocWifiMac`, not an
access-point/station (infrastructure) configuration. -/
theorem c1_infra_counterexample :
    0 < (runMain 6 6 10 (fun _ => 0)).children.length ∧
    ((runMain 6 6 10 (fun _ => 0)).children.getD 0 dummyNet).macType = "ns3::AdhocWifiMac" ∧
    ¬ usesInfraMac ((runMain 6 6 10 (fun _ => 0)).children.getD 0 dummyNet) := by
  obtain ⟨r1, r2, r3, r4, r5, r6, r7, r8, r9, r10, r11, r12, r13, r14, r15⟩ :=
    runMain_spec 6 6 10 (fun _ => 0)
  obtain ⟨jb, jm, jr, jn, jl, jgd, jgl⟩ := r12 0 (by omega)
  refine ⟨by rw [r9]; omega, jm, ?_⟩
  intro hco
  rw [usesInfraMac, jm] at hco
  rcases hco with hco | hco <;> exact absurd hco (by decide)

/-- C1 (amended): for every backbone node `i` the main loop attaches a
per-backbone sub-network to that node, but it is an ad-hoc-mode 802.11
network, not an infrastructure one: the child's mac type is
`ns3::AdhocWifiMac` (no access-point or station mac is configured), and
its container holds the `infraNodes` new nodes followed by backbone node
`i` itself. -/
theorem c1_child_subnetworks_adhoc (b inf stopT : Nat) (rnd : Nat → Nat) (j : Nat)
    (hj : j < b) :
    (runMain b inf stopT rnd).children.length = b ∧
    ((runMain b inf stopT rnd).children.getD j dummyNet).backbone =
      idRange (b + j * inf) inf ++ [j] ∧
    ((runMain b inf stopT rnd).children.getD j dummyNet).backbone.length = inf + 1 ∧
    ((runMain b inf stopT rnd).children.getD j dummyNet).macType = "ns3::AdhocWifiMac" ∧
    ¬ usesInfraMac ((runMain b inf stopT rnd).children.getD j dummyNet) := by
  obtain ⟨r1, r2, r3, r4, r5, r6, r7, r8, r9, r10, r11, r12, r13, r14, r15⟩ :=
    runMain_spec b inf stopT rnd
  obtain ⟨jb, jm, jr, jn, jl, jgd, jgl⟩ := r12 j hj
  refine ⟨r9, jb, ?_, jm, ?_⟩
  · rw [jb]
    simp [idRange_length]
  · intro hco
    rw [usesInfraMac, jm] at hco
    rcases hco with hco | hco <;> exact absurd hco (by decide)

/-- C1 (amended) witness at the defaults. -/
theorem c1_child_subnetworks_adhoc_witness :
    0 < 6 ∧
    ((runMain 6 6 10 (fun _ => 0)).children.getD 0 dummyNet).macType =
      "ns3::AdhocWifiMac" :=
  ⟨by decide, (c1_child_subnetworks_adhoc 6 6 10 (fun _ => 0) 0 (by decide)).2.2.2.1⟩

/-- C4: the backbone network is addressed from base `192.168.0.0` with
mask `255.255.255.0`, every subsequent network is assigned from a fresh
network obtained via `NewNetwork` on the shared helper, and for every
pair of distinct networks built by the program all their device
addresses lie in distinct /24 subnets (for host counts that fit a /24,
as they do at the defaults). -/
theorem c4_distinct_subnets (b inf stopT : Nat) (rnd : Nat → Nat)
    (hb : b ≤ 254) (hinf : inf ≤ 253) :
    (runMain b inf stopT rnd).parent.netNumber = ipv4Address 192 168 0 0 / 256 ∧
    (∀ a ∈ addrsOf (runMain b inf stopT rnd).parent,
      subnetOf a = ipv4Address 192 168 0 0 / 256) ∧
    (∀ t1 t2 : Nat, t1 < (netsOf (runMain b inf stopT rnd)).length →
      t2 < (netsOf (runMain b inf stopT rnd)).length → t1 ≠ t2 →
      ∀ a1 ∈ addrsOf ((netsOf (runMain b inf stopT rnd)).getD t1 dummyNet),
      ∀ a2 ∈ addrsOf ((netsOf (runMain b inf stopT rnd)).getD t2 dummyNet),
      subnetOf a1 ≠ subnetOf a2) := by
  obtain ⟨r1, r2, r3, r4, r5, r6, r7, r8, r9, r10, r11, r12, r13, r14, r15⟩ :=
    runMain_spec b inf stopT rnd
  have hbase : baseNetwork = 12625920 := by norm_num [baseNetwork, ipv4Address]
  have hsub : ∀ t, t < b + 1 →
      ∀ a ∈ addrsOf ((netsOf (runMain b inf stopT rnd)).getD t dummyNet),
      subnetOf a = baseNetwork + t := by
    intro t ht a ha
    cases t with
    | zero =>
      rw [netsOf, List.getD_cons_zero, addrsOf, List.mem_map] at ha
      obtain ⟨e, he, rfl⟩ := ha
      obtain ⟨idx, hidx, hgd⟩ := mem_getD_of_mem _ e (0, 0, 0) he
      rw [r7] at hidx
      rw [r8 idx hidx] at hgd
      subst hgd
      have hlt : baseNetwork * 256 + 1 + idx < 2 ^ 32 := by
        rw [hbase]
        omega
      show (baseNetwork * 256 + 1 + idx) % 2 ^ 32 / 256 = baseNetwork + 0
      rw [Nat.mod_eq_of_lt hlt, hbase]
      omega
    | succ s =>
      have hs : s < b := by omega
      rw [netsOf, List.getD_cons_succ, addrsOf, List.mem_map] at ha
      obtain ⟨jb, jm, jr, jn, jl, jgd, jgl⟩ := r12 s hs
      obtain ⟨e, he, rfl⟩ := ha
      obtain ⟨idx, hidx, hgd⟩ := mem_getD_of_mem _ e (0, 0, 0) he
      rw [jl] at hidx
      by_cases hcase : idx < inf
      · rw [jgd idx hcase] at hgd
        subst hgd
        have hlt : (baseNetwork + 1 + s) * 256 + 1 + idx < 2 ^ 32 := by
          rw [hbase]
          omega
        show ((baseNetwork + 1 + s) * 256 + 1 + idx) % 2 ^ 32 / 256 = baseNetwork + (s + 1)
        rw [Nat.mod_eq_of_lt hlt, hbase]
        omega
      · have hEq : idx = inf := by omega
        obtain ⟨c, hc⟩ := jgl
        rw [hEq, hc] at hgd
        subst hgd
        have hlt : (baseNetwork + 1 + s) * 256 + 1 + inf < 2 ^ 32 := by
          rw [hbase]
          omega
        show ((baseNetwork + 1 + s) * 256 + 1 + inf) % 2 ^ 32 / 256 = baseNetwork + (s + 1)
        rw [Nat.mod_eq_of_lt hlt, hbase]
        omega
  have hlen : (netsOf (runMain b inf stopT rnd)).length = b + 1 := by
    rw [netsOf]
    simp [r9]
  refine ⟨r6, ?_, ?_⟩
  · intro a ha
    have hh := hsub 0 (by omega) a (by rw [netsOf, List.getD_cons_zero]; exact ha)
    show subnetOf a = baseNetwork
    simpa using hh
  · intro t1 t2 ht1 ht2 hne a1 ha1 a2 ha2
    rw [hlen] at ht1 ht2
    have h1 := hsub t1 ht1 a1 ha1
    have h2 := hsub t2 ht2 a2 ha2
    rw [h1, h2]
    omega

/-- C4 witness at the defaults: the first backbone address (192.168.0.1)
and the first address of the first child network (192.168.1.1) lie in
distinct /24 subnets. -/
theorem c4_distinct_subnets_witness :
    6 ≤ 254 ∧ 6 ≤ 253 ∧
    subnetOf 3232235521 ≠ subnetOf 3232235777 :=
  ⟨by decide, by decide,
   (c4_distinct_subnets 6 6 10 (fun _ => 0) (by decide) (by decide)).2.2
     0 1 (by decide) (by decide) (by decide) 3232235521 (by decide) 3232235777 (by decide)⟩

/-- C10: after construction the global node count is
`backboneNodes * (1 + infraNodes)` (42 at the defaults), each child
container holds `infraNodes + 1` nodes whose last element is parent
backbone node `i`, and every global node carries an internet stack and
an address at interface index 1 — the precondition of the
`GetAddress(1, 0)` reads in the traffic loop. -/
theorem c10_topology_invariants (b inf stopT : Nat) (rnd : Nat → Nat) (j : Nat)
    (hj : j < b) :
    (runMain b inf stopT rnd).finalState.globalNodes.length = b * (1 + inf) ∧
    (runMain 6 6 10 rnd).finalState.globalNodes.length = 42 ∧
    ((runMain b inf stopT rnd).children.getD j dummyNet).backbone.length = inf + 1 ∧
    ((runMain b inf stopT rnd).children.getD j dummyNet).backbone.getLast? =
      some ((runMain b inf stopT rnd).parent.backbone.getD j 0) ∧
    (∀ n ∈ (runMain b inf stopT rnd).finalState.globalNodes,
      n ∈ (runMain b inf stopT rnd).finalState.stackNodes ∧
      ∃ a, (n, 1, a) ∈ (runMain b inf stopT rnd).finalState.assigned) := by
  obtain ⟨r1, r2, r3, r4, r5, r6, r7, r8, r9, r10, r11, r12, r13, r14, r15⟩ :=
    runMain_spec b inf stopT rnd
  obtain ⟨jb, jm, jr, jn, jl, jgd, jgl⟩ := r12 j hj
  obtain ⟨q1, q2, q3, q4, q5, q6, q7, q8, q9, q10, q11, q12, q13, q14, q15⟩ :=
    runMain_spec 6 6 10 rnd
  have hpg : (runMain b inf stopT rnd).parent.backbone.getD j 0 = j := by
    rw [r1, idRange_getD _ _ _ hj]
    omega
  refine ⟨?_, ?_, ?_, ?_, r14⟩
  · rw [r10, idRange_length]
    ring
  · rw [q10, idRange_length]
  · rw [jb]
    simp [idRange_length]
  · rw [jb, hpg]
    exact List.getLast?_concat _
/-- C10 witness at the defaults. -/
theorem c10_topology_invariants_witness :
    0 < 6 ∧ (runMain 6 6 10 (fun _ => 0)).finalState.globalNodes.length = 42 :=
  ⟨by decide, (c10_topology_invariants 6 6 10 (fun _ => 0) 0 (by decide)).2.1⟩

/-- C5: for every index `i` below the global node count, the traffic
loop draws `irand = rand() % GetN()`, and installs on **every** global
node one OnOff UDP application whose remote is the drawn node's
interface-1 address on port 9, with constant OnTime 1, OffTime 0,
packet size 1472 and data rate 512 kb/s, started at 3 s and stopped at
`stopTime` s. -/
theorem c5_traffic_generation (b inf stopT : Nat) (rnd : Nat → Nat) (i : Nat)
    (hi : i < (runMain b inf stopT rnd).finalState.globalNodes.length) :
    (runMain b inf stopT rnd).apps.length =
      (runMain b inf stopT rnd).finalState.globalNodes.length ∧
    (runMain b inf stopT rnd).apps.getD i dummyApp =
      { protocol := "ns3::UdpSocketFactory"
        remoteAddr := addr1 (runMain b inf stopT rnd).finalState.assigned
          ((runMain b inf stopT rnd).finalState.globalNodes.getD
            (rnd i % (runMain b inf stopT rnd).finalState.globalNodes.length) 0)
        remotePort := 9
        onTime := "ns3::ConstantRandomVariable[Constant=1]"
        offTime := "ns3::ConstantRandomVariable[Constant=0]"
        packetSize := 1472
        dataRate := "512kb/s"
        installedOn := (runMain b inf stopT rnd).finalState.globalNodes
        startTime := 3
        stopTime := (stopT : ℚ) } := by
  obtain ⟨r1, r2, r3, r4, r5, r6, r7, r8, r9, r10, r11, r12, r13, r14, r15⟩ :=
    runMain_spec b inf stopT rnd
  refine ⟨?_, ?_⟩
  · rw [r15]
    simp [appLoop]
  · rw [r15]
    rw [List.getD_eq_getElem _ _ (by simpa [appLoop] using hi)]
    simp only [appLoop, List.getElem_map, List.getElem_range]

/-- C5 witness at the defaults. -/
theorem c5_traffic_generation_witness :
    0 < (runMain 6 6 10 (fun _ => 0)).finalState.globalNodes.length ∧
    (runMain 6 6 10 (fun _ => 0)).apps.length =
      (runMain 6 6 10 (fun _ => 0)).finalState.globalNodes.length :=
  ⟨by decide, (c5_traffic_generation 6 6 10 (fun _ => 0) 0 (by decide)).1⟩

/-- C6: every node is covered by a mobility installation whose model is
`ns3::RandomWaypointMobilityModel` with waypoints uniform on
[0,500]x[0,500], speed uniform on [0,1] and pause constant 0; and for
each child sub-network the parent backbone node `i` is pushed as
reference mobility model immediately after the sub-network's own model
is installed. -/
theorem c6_mobility_model (b inf stopT : Nat) (rnd : Nat → Nat) :
    rwpMobility.typeId = "ns3::RandomWaypointMobilityModel" ∧
    rwpMobility.posAllocType = "ns3::RandomRectanglePositionAllocator" ∧
    rwpMobility.posX = "ns3::UniformRandomVariable[Min=0.0|Max=500.0]" ∧
    rwpMobility.posY = "ns3::UniformRandomVariable[Min=0.0|Max=500.0]" ∧
    rwpMobility.speed = "ns3::UniformRandomVariable[Min=0.0|Max=1.0]" ∧
    rwpMobility.pause = "ns3::ConstantRandomVariable[Constant=0.0]" ∧
    (∀ n ∈ (runMain b inf stopT rnd).finalState.globalNodes,
      ∃ c, Ev.mobilityInstall rwpMobility c ∈ (runMain b inf stopT rnd).finalState.events ∧
        n ∈ c) ∧
    (∀ j, j < b →
      List.IsInfix
        [Ev.mobilityInstall rwpMobility
           (((runMain b inf stopT rnd).children.getD j dummyNet).backbone),
         Ev.pushReference j]
        (runMain b inf stopT rnd).finalState.events) := by
  obtain ⟨r1, r2, r3, r4, r5, r6, r7, r8, r9, r10, r11, r12, r13, r14, r15⟩ :=
    runMain_spec b inf stopT rnd
  obtain ⟨mid, hev, hmid⟩ := r13
  refine ⟨rfl, rfl, rfl, rfl, rfl, rfl, ?_, ?_⟩
  · intro n hn
    rw [r10] at hn
    by_cases hnb : n < b
    · refine ⟨idRange 0 b, ?_, ?_⟩
      · rw [hev]
        apply List.mem_append_left
        apply List.mem_append_left
        simp [preLoopEvents]
      · rw [mem_idRange]
        omega
    · have hn' : n ∈ idRange b (b * inf) := by
        rw [mem_idRange] at hn ⊢
        omega
      obtain ⟨j, hj, hjm⟩ := idRange_mul_split b inf b n hn'
      obtain ⟨jb, jm, jr, jn, jl, jgd, jgl⟩ := r12 j hj
      refine ⟨((runMain b inf stopT rnd).children.getD j dummyNet).backbone, ?_, ?_⟩
      · have hinf := (hmid j hj).2
        have hsub := hinf.subset
        have hm : Ev.mobilityInstall rwpMobility
            (((runMain b inf stopT rnd).children.getD j dummyNet).backbone) ∈
            preLoopEvents b ++ mid := hsub (by simp)
        rw [hev]
        exact List.mem_append_left _ hm
      · rw [jb]
        exact List.mem_append_left _ hjm
  · intro j hj
    have hinf := (hmid j hj).2
    rw [hev]
    exact isInfix_append_right _ hinf

/-- C6 witness at the defaults. -/
theorem c6_mobility_model_witness :
    rwpMobility.speed = "ns3::UniformRandomVariable[Min=0.0|Max=1.0]" :=
  (c6_mobility_model 6 6 10 (fun _ => 0)).2.2.2.2.1

/-- C7: before the simulator run the program wires the ascii trace
stream `mixed-wireless.tr` (csma and ipv4), promiscuous pcap with
prefix `mixed-wireless` for csma and for every wifi device container,
the NetAnim file `mixed-wireless.xml` and ipv4 route tracking to
`mixed-wireless-route-tracking.xml` sampled every 0.25 s between 0 s
and 9 s; after the run it dumps the flow monitor to
`mixed-wireless-flow-monitor.xml`. -/
theorem c7_tracing_setup (b inf stopT : Nat) (rnd : Nat → Nat) :
    ∃ pre post,
      (runMain b inf stopT rnd).finalState.events =
        pre ++ Ev.simulatorRun (stopT : ℚ) :: post ∧
      Ev.csmaAscii "mixed-wireless.tr" ∈ pre ∧
      Ev.csmaPcapAll "mixed-wireless" true ∈ pre ∧
      Ev.ipv4Ascii "mixed-wireless.tr" ∈ pre ∧
      Ev.wifiPcap "mixed-wireless"
        ((runMain b inf stopT rnd).parent.devices.map Prod.fst) true ∈ pre ∧
      (∀ j, j < b →
        Ev.wifiPcap "mixed-wireless"
          (((runMain b inf stopT rnd).children.getD j dummyNet).backbone) true ∈ pre) ∧
      Ev.animFile "mixed-wireless.xml" ∈ pre ∧
      Ev.routeTracking "mixed-wireless-route-tracking.xml" 0 9 (1 / 4) ∈ pre ∧
      Ev.serializeFlowMonitor "mixed-wireless-flow-monitor.xml" ∈ post := by
  obtain ⟨r1, r2, r3, r4, r5, r6, r7, r8, r9, r10, r11, r12, r13, r14, r15⟩ :=
    runMain_spec b inf stopT rnd
  obtain ⟨mid, hev, hmid⟩ := r13
  refine ⟨preLoopEvents b ++ mid ++
      [Ev.flowMonitorInstallAll, Ev.animFile "mixed-wireless.xml",
       Ev.routeTracking "mixed-wireless-route-tracking.xml" 0 9 (1 / 4)],
    [Ev.serializeFlowMonitor "mixed-wireless-flow-monitor.xml"], ?_, ?_, ?_, ?_, ?_, ?_, ?_, ?_,
    by simp⟩
  · rw [hev, postLoopEvents]
    simp
  · apply List.mem_append_left
    apply List.mem_append_left
    simp [preLoopEvents]
  · apply List.mem_append_left
    apply List.mem_append_left
    simp [preLoopEvents]
  · apply List.mem_append_left
    apply List.mem_append_left
    simp [preLoopEvents]
  · rw [r4, map_fst_pair]
    apply List.mem_append_left
    apply List.mem_append_left
    simp [preLoopEvents]
  · intro j hj
    have hm := (hmid j hj).1
    exact List.mem_append_left _ hm
  · apply List.mem_append_right
    simp
  · apply List.mem_append_right
    simp

/-- C7 witness at the defaults. -/
theorem c7_tracing_setup_witness :
    ∃ pre post,
      (runMain 6 6 10 (fun _ => 0)).finalState.events =
        pre ++ Ev.simulatorRun ((10 : Nat) : ℚ) :: post ∧
      Ev.csmaAscii "mixed-wireless.tr" ∈ pre ∧
      Ev.csmaPcapAll "mixed-wireless" true ∈ pre ∧
      Ev.ipv4Ascii "mixed-wireless.tr" ∈ pre ∧
      Ev.wifiPcap "mixed-wireless"
        ((runMain 6 6 10 (fun _ => 0)).parent.devices.map Prod.fst) true ∈ pre ∧
      (∀ j, j < 6 →
        Ev.wifiPcap "mixed-wireless"
          (((runMain 6 6 10 (fun _ => 0)).children.getD j dummyNet).backbone) true ∈ pre) ∧
      Ev.animFile "mixed-wireless.xml" ∈ pre ∧
      Ev.routeTracking "mixed-wireless-route-tracking.xml" 0 9 (1 / 4) ∈ pre ∧
      Ev.serializeFlowMonitor "mixed-wireless-flow-monitor.xml" ∈ post :=
  c7_tracing_setup 6 6 10 (fun _ => 0)

/-- C3: `data.csv` consists of the fixed header row followed by exactly
one row per monitored flow, in the iteration order of the flow-stats
map, with `TxBitrate = txBytes*8/(timeLastTxPacket-timeFirstTxPacket)/1000`
and `average traffic = TxBitrate * (Duration / timeLastTxPacket)`. -/
theorem c3_data_csv (flows : List Flow) (i : Nat) (hi : i < flows.length) :
    dataHeader =
      "Source Address;Destination Address;TxBytes;RxBytes;FirstTxPacket;LastTxPacket;Duration;Delay;Jitter;LostPackets;TxBitrate;average traffic" ∧
    (dataRows flows).length = flows.length ∧
    (dataRows flows).getD i dummyRow = dataRowOf (flows.getD i dummyFlow) ∧
    (∀ f : Flow,
      (dataRowOf f).sourceAddress = f.tuple.sourceAddress ∧
      (dataRowOf f).destinationAddress = f.tuple.destinationAddress ∧
      (dataRowOf f).txBytes = f.stats.txBytes ∧
      (dataRowOf f).rxBytes = f.stats.rxBytes ∧
      (dataRowOf f).firstTxPacket = f.stats.timeFirstTxPacket ∧
      (dataRowOf f).lastTxPacket = f.stats.timeLastTxPacket ∧
      (dataRowOf f).duration = f.stats.timeLastTxPacket - f.stats.timeFirstTxPacket ∧
      (dataRowOf f).lostPackets = f.stats.lostPackets ∧
      (dataRowOf f).txBitrate =
        (f.stats.txBytes : ℚ) * 8 /
          (f.stats.timeLastTxPacket - f.stats.timeFirstTxPacket) / 1000 ∧
      (dataRowOf f).averageTraffic =
        (dataRowOf f).txBitrate *
          ((dataRowOf f).duration / f.stats.timeLastTxPacket)) := by
  refine ⟨rfl, by simp [dataRows], ?_, ?_⟩
  · rw [List.getD_eq_getElem _ _ (by simpa [dataRows] using hi),
      List.getD_eq_getElem _ _ hi]
    simp [dataRows]
  · intro f
    exact ⟨rfl, rfl, rfl, rfl, rfl, rfl, rfl, rfl, rfl, rfl⟩

/-- C3 witness at a concrete flow. -/
theorem c3_data_csv_witness :
    0 < [sampleFlowA].length ∧
    (dataRows [sampleFlowA]).getD 0 dummyRow = dataRowOf ([sampleFlowA].getD 0 dummyFlow) :=
  ⟨by decide, (c3_data_csv [sampleFlowA] 0 (by decide)).2.2.1⟩

/-- C8: the Delay, Jitter and TxBitrate columns are computed as
`delaySum/rxPackets`, `jitterSum/(rxPackets - 1)` (uint32 arithmetic)
and `txBytes*8/(timeLastTxPacket-timeFirstTxPacket)/1000` without any
guard, and all three divisors are nonzero exactly when `rxPackets >= 2`
and `timeLastTxPacket > timeFirstTxPacket`: a flow with zero or one
received packet, or with a single transmitted packet, makes one of the
divisions a division by zero. -/
theorem c8_unguarded_divisions (s : FlowStats) (h32 : s.rxPackets < 2 ^ 32)
    (hle : s.timeFirstTxPacket ≤ s.timeLastTxPacket) :
    (∀ t : FiveTuple,
      (dataRowOf { tuple := t, stats := s }).delay = s.delaySum / (s.rxPackets : ℚ) ∧
      (dataRowOf { tuple := t, stats := s }).jitter = s.jitterSum / (jitterDivisor s : ℚ) ∧
      (dataRowOf { tuple := t, stats := s }).txBitrate =
        (s.txBytes : ℚ) * 8 / (s.timeLastTxPacket - s.timeFirstTxPacket) / 1000) ∧
    (((s.rxPackets : ℚ) ≠ 0 ∧ (jitterDivisor s : ℚ) ≠ 0 ∧
        s.timeLastTxPacket - s.timeFirstTxPacket ≠ 0) ↔
      (2 ≤ s.rxPackets ∧ s.timeFirstTxPacket < s.timeLastTxPacket)) := by
  have hpow : (2 : Nat) ^ 32 = 4294967296 := by norm_num
  refine ⟨fun t => ⟨rfl, rfl, rfl⟩, ?_⟩
  constructor
  · rintro ⟨hd, hj, hb⟩
    have hrx : s.rxPackets ≠ 0 := Nat.cast_ne_zero.mp hd
    have hjd : jitterDivisor s ≠ 0 := Nat.cast_ne_zero.mp hj
    have h2 : 2 ≤ s.rxPackets := by
      rw [jitterDivisor, u32, hpow] at hjd
      rw [hpow] at h32
      omega
    have hne : s.timeLastTxPacket ≠ s.timeFirstTxPacket := by
      intro hc
      exact hb (by rw [hc]; ring)
    exact ⟨h2, lt_of_le_of_ne hle (Ne.symm hne)⟩
  · rintro ⟨h2, hlt⟩
    refine ⟨Nat.cast_ne_zero.mpr (by omega), ?_, sub_ne_zero.mpr (ne_of_gt hlt)⟩
    refine Nat.cast_ne_zero.mpr ?_
    rw [jitterDivisor, u32, hpow]
    rw [hpow] at h32
    omega

/-- C8 witness at a concrete flow with enough received packets. -/
theorem c8_unguarded_divisions_witness :
    sampleFlowA.stats.rxPackets < 2 ^ 32 ∧
    ((sampleFlowA.stats.rxPackets : ℚ) ≠ 0 ∧ (jitterDivisor sampleFlowA.stats : ℚ) ≠ 0 ∧
      sampleFlowA.stats.timeLastTxPacket - sampleFlowA.stats.timeFirstTxPacket ≠ 0) :=
  ⟨by decide,
   ((c8_unguarded_divisions sampleFlowA.stats (by decide) (by decide)).2).mpr
     ⟨by decide, by decide⟩⟩

/-- C9: `resumen.csv` has, for every distinct `source;destination` key
among the flows, exactly one data row, namely the triple of the key,
the sum over that key's flows of `TxBitrate * (Duration /
timeLastTxPacket)`, and the number of such flows — three
semicolon-separated fields under a header that names only two columns
and calls the pair key a source address. -/
theorem c9_resumen_csv (flows : List Flow) (key : String)
    (hkey : key ∈ flows.map flowKey) :
    resumenHeader = "Source Address;average traffic" ∧
    resumenHeader.toList.count ';' = 1 ∧
    (∀ f : Flow, flowKey f =
      f.tuple.sourceAddress ++ ";" ++ f.tuple.destinationAddress) ∧
    ((resumenRows flows).map Prod.fst).Nodup ∧
    (resumenRows flows).filter (fun r => r.1 == key) =
      [(key, sumAvg key flows, (countKey key flows : ℚ))] ∧
    (∀ f : Flow, averageOf f.stats =
      bitrateOf f.stats * (durationOf f.stats / f.stats.timeLastTxPacket)) := by
  have hnd : ((resumenRows flows).map Prod.fst).Nodup := resumenRows_nodupKeys flows
  have hmem : key ∈ accKeys (resumenRows flows) :=
    (mem_accKeys_resumenRows flows key).mpr hkey
  obtain ⟨r, hr, hr1⟩ : ∃ r ∈ resumenRows flows, r.1 = key := by
    rw [accKeys, List.mem_map] at hmem
    obtain ⟨r, hr, hrk⟩ := hmem
    exact ⟨r, hr, hrk⟩
  have hsome : ((resumenRows flows).find? (fun x => x.1 == key)).isSome := by
    rw [List.find?_isSome]
    exact ⟨r, hr, by simp [hr1]⟩
  obtain ⟨row, hrow⟩ := Option.isSome_iff_exists.mp hsome
  obtain ⟨rk, rs, rc⟩ := row
  have hpred := List.find?_some hrow
  have hkeyrow : rk = key := by simpa using hpred
  subst hkeyrow
  have hrv := rowVal_resumenRows flows rk
  rw [rowVal, hrow] at hrv
  have hrs : rs = sumAvg rk flows := congrArg Prod.fst hrv
  have hrc : rc = (countKey rk flows : ℚ) := congrArg Prod.snd hrv
  subst hrs
  subst hrc
  refine ⟨rfl, by decide, fun f => rfl, hnd, ?_, fun f => rfl⟩
  exact filter_key_singleton rk (resumenRows flows) hnd _ hrow

/-- C9 witness: two flows with the same key are summed into one row. -/
theorem c9_resumen_csv_witness :
    "10.0.0.1;10.0.0.2" ∈ [sampleFlowA, sampleFlowB].map flowKey ∧
    (resumenRows [sampleFlowA, sampleFlowB]).filter
        (fun r => r.1 == "10.0.0.1;10.0.0.2") =
      [("10.0.0.1;10.0.0.2", sumAvg "10.0.0.1;10.0.0.2" [sampleFlowA, sampleFlowB],
        (countKey "10.0.0.1;10.0.0.2" [sampleFlowA, sampleFlowB] : ℚ))] :=
  ⟨by decide,
   (c9_resumen_csv [sampleFlowA, sampleFlowB] "10.0.0.1;10.0.0.2" (by decide)).2.2.2.2.1⟩

end WirelessNet
